import Mathlib

/-!
Verification development for the single-point-positioning (SPP) core of
`src/gnss_preprocessor/RTKLIB/src/pntpos.cpp`.

The C code is shallowly embedded over exact rationals.  Every double of the
source is modelled as a `ℚ`; external collaborators that live outside the
source file (`satsys`, `satexclude`, `geodist`, `satazel`, `ecef2pos`,
`xyz2enu`, `testsnr`, `sat2freq`, `getseleph`, `ionmodel`, `sbsioncorr`,
`iontec`, `tropmodel`, `sbstropcorr`, `dops`, the `chisqr` table, `lsq`,
`satposs`, and the real-valued `sqrt`/`sin`/`cos`) are fields of an `Env`
record, so that every theorem quantifies over their behaviour and concrete
witnesses can instantiate them.  C arrays become Lean lists threaded through
the state; in/out buffers are explicit arguments and results.  The
`sprintf`-formatted diagnostic buffer is modelled by the inductive `Msg`,
one constructor per `sprintf` in the source.  The locals `dion`, `dtrp`,
`vion`, `vtrp` of `rescode` are declared in the source *without*
initialisers; their indeterminate initial contents are modelled by the
`Env` fields `dion0`, `dtrp0`, `vion0`, `vtrp0`, and likewise the contents
of `malloc`ed buffers that are read before being written are `Env` fields
(`vsatEJunk`, `respEJunk`, `msgEJunk`, `respJunk`).
-/

namespace Pntpos

/-- `#define NX (4+4)`: dimension of the estimated state. -/
def NX : ℕ := 8

/-- `#define MAXITR 10`: max Gauss-Newton iterations. -/
def MAXITR : ℕ := 10

/-- `CLIGHT` from `rtklib.h` (m/s). -/
def CLIGHT : ℚ := 299792458

/-- `OMGE` from `rtklib.h`, earth angular velocity `7.2921151467E-5` (rad/s). -/
def OMGE : ℚ := 72921151467 / 10 ^ 15

/-- carrier frequencies from `rtklib.h` (Hz). -/
def FREQ1 : ℚ := 1575420000

def FREQ2 : ℚ := 1227600000

def FREQ5 : ℚ := 1176450000

def FREQ7 : ℚ := 1207140000

def FREQ9 : ℚ := 2492028000

def FREQ1_GLO : ℚ := 1602000000

def FREQ2_GLO : ℚ := 1246000000

def FREQ1_CMP : ℚ := 1561098000

def FREQ2_CMP : ℚ := 1207140000

/-- error factors from `rtklib.h`. -/
def EFACT_GPS : ℚ := 1

def EFACT_GLO : ℚ := 3 / 2

def EFACT_SBS : ℚ := 3

/-- `#define ERR_ION 5.0` (m). -/
def ERR_ION : ℚ := 5

/-- `#define ERR_TROP 3.0` (m). -/
def ERR_TROP : ℚ := 3

/-- `#define ERR_SAAS 0.3` (m). -/
def ERR_SAAS : ℚ := 3 / 10

/-- `#define ERR_BRDCI 0.5`. -/
def ERR_BRDCI : ℚ := 1 / 2

/-- `#define ERR_CBIAS 0.3` (m). -/
def ERR_CBIAS : ℚ := 3 / 10

/-- `#define REL_HUMI 0.7`. -/
def REL_HUMI : ℚ := 7 / 10

/-- `SNR_UNIT` from `rtklib.h` (dBHz per raw unit). -/
def SNR_UNIT : ℚ := 1 / 1000

/-- `PMODE_SINGLE` from `rtklib.h`. -/
def PMODE_SINGLE : ℕ := 0

/-- `EPHOPT_SBAS` from `rtklib.h` (the exact numeral is immaterial: only
the comparison `opt.sateph == EPHOPT_SBAS` is consumed). -/
def EPHOPT_SBAS : ℕ := 2

/-- signal-code tags from `rtklib.h`; only their distinctness is consumed. -/
def CODE_L1C : ℕ := 1

def CODE_L1P : ℕ := 2

def CODE_L2C : ℕ := 14

def CODE_L2I : ℕ := 40

/-- `SQR(x)` of the source. -/
def SQR (x : ℚ) : ℚ := x * x

/-- `dot(a,b,n)` of rtkcmn, restricted to equal-length list arguments. -/
def dotq (a b : List ℚ) : ℚ := (List.zipWith (· * ·) a b).sum

/-- pointwise sum, used for `x[j] += dx[j]`. -/
def zipAdd (a b : List ℚ) : List ℚ := List.zipWith (· + ·) a b

/-- satellite-system tag returned by the external `satsys`. -/
inductive Sys where
  | SYS_GPS
  | SYS_GLO
  | SYS_GAL
  | SYS_CMP
  | SYS_QZS
  | SYS_SBS
  | SYS_IRN
  | SYS_ZERO
deriving DecidableEq, Inhabited

/-- solution status tags (`SOLQ_???`). -/
inductive SolStat where
  | SOLQ_NONE
  | SOLQ_SINGLE
  | SOLQ_SBAS
deriving DecidableEq, Inhabited

/-- `opt->ionoopt` values consumed by the source. -/
inductive IonoOpt where
  | OFF
  | BRDC
  | SBAS
  | IFLC
  | TEC
  | QZS
deriving DecidableEq, Inhabited

/-- `opt->tropopt` values consumed by the source. -/
inductive TropOpt where
  | OFF
  | SAAS
  | SBAS
  | EST
  | ESTG
deriving DecidableEq, Inhabited

/-- the diagnostic message buffer: one constructor per `sprintf`/`strcpy`
into `msg` in the source (the numeric payloads are the printed values; the
source prints `nv` under the label `ns=` in the lack-of-valid-sats case). -/
inductive Msg where
  | empty
  | noObsData
  | lackOfValidSats (nv : ℕ)
  | lsqError (info : ℤ)
  | iterationDivergent (i : ℕ)
  | chiSquareError (nv : ℕ) (vv cs : ℚ)
  | gdopError (nv : ℕ) (gdop : ℚ)
deriving DecidableEq, Inhabited

/-- the fields of `obsd_t` consumed by the core (`L` is only copied into
the stripped publishing plumbing). -/
structure ObsD where
  sat : ℕ
  time : ℚ
  P1 : ℚ
  P2 : ℚ
  D0 : ℚ
  SNR1 : ℚ
  SNR2 : ℚ
  code1 : ℕ
  code2 : ℕ
deriving DecidableEq, Inhabited

/-- one output row of the external `satposs`: satellite position/velocity
`rs[6i..6i+5]`, clock bias/drift `dts[2i..2i+1]`, variance and health. -/
structure SatGeom where
  rs : List ℚ
  dts0 : ℚ
  dts1 : ℚ
  vare : ℚ
  svh : ℤ
deriving DecidableEq, Inhabited

/-- an observation together with its lock-step `satposs` row. -/
structure SatIn where
  obs : ObsD
  rs : List ℚ
  dts0 : ℚ
  dts1 : ℚ
  vare : ℚ
  svh : ℤ
deriving DecidableEq, Inhabited

/-- `sol_t` (the fields written by this file; `ratioVal` renders the source
field `ratio`). -/
structure Sol where
  time : ℚ
  typ : ℕ
  rr : List ℚ
  qr : List ℚ
  qv : List ℚ
  dtr : List ℚ
  ns : ℕ
  age : ℚ
  ratioVal : ℚ
  stat : SolStat
deriving DecidableEq, Inhabited

/-- `sol_t sol_e={{0}}`: the zero-initialised solution record. -/
def zeroSol : Sol :=
  ⟨0, 0, List.replicate 6 0, List.replicate 6 0, List.replicate 6 0,
   List.replicate 5 0, 0, 0, 0, SolStat.SOLQ_NONE⟩

/-- the fields of `prcopt_t` consumed by the core.  `snrmaskData` is the
opaque `opt->snrmask` blob handed to the external `testsnr`. -/
structure PrcOpt where
  mode : ℕ
  ionoopt : IonoOpt
  tropopt : TropOpt
  sateph : ℕ
  elmin : ℚ
  snrmaskData : List ℚ
  err : List ℚ
  maxgdop : ℚ
  posopt4 : Bool
deriving DecidableEq, Inhabited

/-- navigation records consumed by `gettgd`. -/
structure Eph where
  sat : ℕ
  tgd : List ℚ
deriving DecidableEq, Inhabited

structure GEph where
  sat : ℕ
  dtaun : ℚ
deriving DecidableEq, Inhabited

/-- the fields of `nav_t` consumed by the core.  `cbias sat k` models
`nav->cbias[sat-1][k]`. -/
structure Nav where
  eph : List Eph
  geph : List GEph
  cbias : ℕ → ℕ → ℚ
  ion_gps : List ℚ
  ion_qzs : List ℚ

/-- one assembled residual row: `v[nv]`, `H[.+nv*NX]`, `var[nv]`. -/
structure Row where
  v : ℚ
  H : List ℚ
  var : ℚ
deriving DecidableEq, Inhabited

/-- one Doppler residual row of `resdop`: `v[nv]`, `H[.+nv*4]`. -/
structure DopRow where
  v : ℚ
  H : List ℚ
deriving DecidableEq, Inhabited

/-- external collaborators and environment-supplied values.  `sqrtQ`,
`sinQ`, `cosQ` model the real-valued `sqrt`/`sin`/`cos`; `d2r` models the
irrational `D2R`; `maxobs` models `MAXOBS`; `dion0 dtrp0 vion0 vtrp0`
model the indeterminate initial contents of the uninitialised locals of
`rescode`; the `Junk` fields model the contents of `malloc`ed buffers that
may be read before being written. -/
structure Env where
  d2r : ℚ
  maxobs : ℕ
  satsys : ℕ → Sys
  satexclude : ℕ → ℚ → ℤ → Bool
  geodist : List ℚ → List ℚ → ℚ × List ℚ
  ecef2pos : List ℚ → List ℚ
  xyz2enu : List ℚ → List ℚ
  satazel : List ℚ → List ℚ → ℚ × ℚ
  testsnr : ℕ → ℕ → ℚ → ℚ → List ℚ → Bool
  sat2freq : ℕ → ℕ → Nav → ℚ
  getseleph : Sys → Bool
  ionmodel : ℚ → List ℚ → List ℚ → ℚ × ℚ → ℚ
  sbsioncorr : ℚ → Nav → List ℚ → ℚ × ℚ → Option (ℚ × ℚ)
  iontec : ℚ → Nav → List ℚ → ℚ × ℚ → Option (ℚ × ℚ)
  tropmodel : ℚ → List ℚ → ℚ × ℚ → ℚ → ℚ
  sbstropcorr : ℚ → List ℚ → ℚ × ℚ → ℚ × ℚ
  dops : ℕ → List (ℚ × ℚ) → ℚ → ℚ
  chisqr : ℕ → ℚ
  lsq : List (List ℚ) → List ℚ → ℕ → ℕ → Except ℤ (List ℚ × List ℚ)
  sqrtQ : ℚ → ℚ
  sinQ : ℚ → ℚ
  cosQ : ℚ → ℚ
  satposs : ℚ → List ObsD → Nav → ℕ → List SatGeom
  dion0 : ℚ
  dtrp0 : ℚ
  vion0 : ℚ
  vtrp0 : ℚ
  vsatEJunk : ℕ → List Bool
  respEJunk : ℕ → List ℚ
  msgEJunk : Msg
  respJunk : ℕ → List ℚ

/-- `varerr(opt,el,sys)`: pseudorange measurement error variance
(pntpos.cpp lines 92-100).  `MIN_EL` is `5.0*D2R` with `D2R` taken from the
environment; `sin` is the environment's real sine. -/
def varerr (env : Env) (opt : PrcOpt) (el : ℚ) (sys : Sys) : ℚ :=
  let fact : ℚ :=
    match sys with
    | Sys.SYS_GLO => EFACT_GLO
    | Sys.SYS_SBS => EFACT_SBS
    | _ => EFACT_GPS
  let el := if el < 5 * env.d2r then 5 * env.d2r else el
  let varr := SQR (opt.err.getD 0 0) *
    (SQR (opt.err.getD 1 0) + SQR (opt.err.getD 2 0) / env.sinQ el)
  let varr :=
    match opt.ionoopt with
    | IonoOpt.IFLC => varr * SQR 3
    | _ => varr
  SQR fact * varr

/-- `gettgd(sat,nav,type)`: group delay parameter in meters
(pntpos.cpp lines 102-118); the linear search with `break` is the first
matching record. -/
def gettgd (env : Env) (nav : Nav) (sat : ℕ) (type_ : ℕ) : ℚ :=
  match env.satsys sat with
  | Sys.SYS_GLO =>
    match nav.geph.find? (fun g => g.sat = sat) with
    | none => 0
    | some g => -g.dtaun * CLIGHT
  | _ =>
    match nav.eph.find? (fun e => e.sat = sat) with
    | none => 0
    | some e => e.tgd.getD type_ 0 * CLIGHT

/-- `snrmask(obs,azel,opt)` (pntpos.cpp lines 120-129): 1 = keep,
0 = reject. -/
def snrmask (env : Env) (opt : PrcOpt) (obs : ObsD) (azel : ℚ × ℚ) : Bool :=
  if env.testsnr 0 0 azel.2 (obs.SNR1 * SNR_UNIT) opt.snrmaskData then false
  else
    match opt.ionoopt with
    | IonoOpt.IFLC =>
      if env.testsnr 0 1 azel.2 (obs.SNR2 * SNR_UNIT) opt.snrmaskData
      then false else true
    | _ => true

/-- `prange(obs,nav,opt,&var)` (pntpos.cpp lines 131-210): the corrected
pseudorange and the model variance written through `var` (0 when the early
return fires, because `*var=0.0` precedes it). -/
def prange (env : Env) (nav : Nav) (opt : PrcOpt) (obs : ObsD) : ℚ × ℚ :=
  let sat := obs.sat
  let sys := env.satsys sat
  let P1 := obs.P1
  let P2 := obs.P2
  if P1 = 0 ∨ (opt.ionoopt = IonoOpt.IFLC ∧ P2 = 0) then (0, 0)
  else
    let P1 :=
      match sys with
      | Sys.SYS_GPS | Sys.SYS_GLO =>
        if obs.code1 = CODE_L1C then P1 + nav.cbias sat 1 else P1
      | _ => P1
    let P2 :=
      match sys with
      | Sys.SYS_GPS | Sys.SYS_GLO =>
        if obs.code2 = CODE_L2C then P2 + nav.cbias sat 2 else P2
      | _ => P2
    match opt.ionoopt with
    | IonoOpt.IFLC =>
      match sys with
      | Sys.SYS_GPS | Sys.SYS_QZS =>
        let gamma := SQR (FREQ1 / FREQ2)
        ((P2 - gamma * P1) / (1 - gamma), 0)
      | Sys.SYS_GLO =>
        let gamma := SQR (FREQ1_GLO / FREQ2_GLO)
        ((P2 - gamma * P1) / (1 - gamma), 0)
      | Sys.SYS_GAL =>
        let gamma := SQR (FREQ1 / FREQ7)
        let P2 := if env.getseleph Sys.SYS_GAL
          then P2 - (gettgd env nav sat 0 - gettgd env nav sat 1) else P2
        ((P2 - gamma * P1) / (1 - gamma), 0)
      | Sys.SYS_CMP =>
        let gamma :=
          SQR ((if obs.code1 = CODE_L2I then FREQ1_CMP else FREQ1) / FREQ2_CMP)
        let b1 := if obs.code1 = CODE_L2I then gettgd env nav sat 0
          else if obs.code1 = CODE_L1P then gettgd env nav sat 2
          else gettgd env nav sat 2 + gettgd env nav sat 4
        let b2 := gettgd env nav sat 1
        (((P2 - gamma * P1) - (b2 - gamma * b1)) / (1 - gamma), 0)
      | Sys.SYS_IRN =>
        let gamma := SQR (FREQ5 / FREQ9)
        ((P2 - gamma * P1) / (1 - gamma), 0)
      | _ => (P1, 0)
    | _ =>
      let varv := SQR ERR_CBIAS
      match sys with
      | Sys.SYS_GPS | Sys.SYS_QZS =>
        (P1 - gettgd env nav sat 0, varv)
      | Sys.SYS_GLO =>
        let gamma := SQR (FREQ1_GLO / FREQ2_GLO)
        (P1 - gettgd env nav sat 0 / (gamma - 1), varv)
      | Sys.SYS_GAL =>
        let b1 := if env.getseleph Sys.SYS_GAL then gettgd env nav sat 0
          else gettgd env nav sat 1
        (P1 - b1, varv)
      | Sys.SYS_CMP =>
        let b1 := if obs.code1 = CODE_L2I then gettgd env nav sat 0
          else if obs.code1 = CODE_L1P then gettgd env nav sat 2
          else gettgd env nav sat 2 + gettgd env nav sat 4
        (P1 - b1, varv)
      | Sys.SYS_IRN =>
        let gamma := SQR (FREQ9 / FREQ5)
        (P1 - gamma * gettgd env nav sat 0, varv)
      | _ => (P1, varv)

/-- `ionocorr` (pntpos.cpp lines 223-253): `some (ion, var)` when the
status is 1, `none` when the external SBAS/TEC model reports failure. -/
def ionocorr (env : Env) (nav : Nav) (time : ℚ) (_sat : ℕ) (pos : List ℚ)
    (azel : ℚ × ℚ) (ionoopt : IonoOpt) : Option (ℚ × ℚ) :=
  match ionoopt with
  | IonoOpt.BRDC =>
    let ion := env.ionmodel time nav.ion_gps pos azel
    some (ion, SQR (ion * ERR_BRDCI))
  | IonoOpt.SBAS => env.sbsioncorr time nav pos azel
  | IonoOpt.TEC => env.iontec time nav pos azel
  | IonoOpt.QZS =>
    if env.sqrtQ (dotq (nav.ion_qzs.take 8) (nav.ion_qzs.take 8)) > 0 then
      let ion := env.ionmodel time nav.ion_qzs pos azel
      some (ion, SQR (ion * ERR_BRDCI))
    else some (0, 0)
  | IonoOpt.OFF => some (0, SQR ERR_ION)
  | IonoOpt.IFLC => some (0, 0)

/-- `tropcorr` (pntpos.cpp lines 265-287). -/
def tropcorr (env : Env) (_nav : Nav) (time : ℚ) (pos : List ℚ)
    (azel : ℚ × ℚ) (tropopt : TropOpt) : Option (ℚ × ℚ) :=
  match tropopt with
  | TropOpt.SAAS | TropOpt.EST | TropOpt.ESTG =>
    some (env.tropmodel time pos azel REL_HUMI,
          SQR (ERR_SAAS / (env.sinQ azel.2 + 1 / 10)))
  | TropOpt.SBAS => some (env.sbstropcorr time pos azel)
  | TropOpt.OFF => some (0, SQR ERR_TROP)

/-- the state threaded through the observation loop of `rescode`:
accumulated rows `(v,H,var)`, retained-satellite count `ns`, the
`mask[NX-3]` array, the function-scope locals `dion dtrp vion vtrp`
(which persist across loop iterations), and the in/out arrays
`vsat`, `azel`, `resp`. -/
structure RcState where
  rows : List Row
  ns : ℕ
  mask : List Bool
  dion : ℚ
  dtrp : ℚ
  vion : ℚ
  vtrp : ℚ
  vsat : List Bool
  azel : List (ℚ × ℚ)
  resp : List ℚ
deriving DecidableEq, Inhabited

/-- `vsat[i]=0; azel[i*2]=azel[1+i*2]=resp[i]=0.0;` at the top of the
`rescode` observation loop. -/
def rcSlotInit (i : ℕ) (st : RcState) : RcState :=
  { st with vsat := st.vsat.set i false,
            azel := st.azel.set i (0, 0),
            resp := st.resp.set i 0 }

/-- the offset-mask slot written for each system in the design-row
dispatch of `rescode`: `GLO -> mask[1]`, `GAL -> mask[2]`,
`CMP -> mask[3]`, `IRN -> mask[4]`, everything else (`GPS`/`SBS`/`QZS`
under the reference configuration) `-> mask[0]`. -/
def sysMaskIdx (sys : Sys) : ℕ :=
  match sys with
  | Sys.SYS_GLO => 1
  | Sys.SYS_GAL => 2
  | Sys.SYS_CMP => 3
  | Sys.SYS_IRN => 4
  | _ => 0

/-- the `if (iter>0) { ... }` block of `rescode` (pntpos.cpp lines
325-344): elevation mask, SNR mask, ionospheric correction, frequency
gate with `(FREQ1/freq)^2` scaling, tropospheric correction.  Returns the
updated state together with `true` when the observation survives all
gates; note that `azel[i]` and the `dion/vion/dtrp/vtrp` locals already
updated before a failing gate keep their new values. -/
def rescodeGate (env : Env) (nav : Nav) (opt : PrcOpt) (iter : ℕ)
    (pos : List ℚ) (d : SatIn) (i : ℕ) (e : List ℚ) (st : RcState) :
    RcState × Bool :=
  if iter = 0 then (st, true)
  else
    let ae := env.satazel pos e
    let st := { st with azel := st.azel.set i ae }
    if ae.2 < opt.elmin then (st, false)
    else if snrmask env opt d.obs ae = false then (st, false)
    else
      match ionocorr env nav d.obs.time d.obs.sat pos ae opt.ionoopt with
      | none => (st, false)
      | some dv =>
        let st := { st with dion := dv.1, vion := dv.2 }
        let freq := env.sat2freq d.obs.sat d.obs.code1 nav
        if freq = 0 then (st, false)
        else
          let st := { st with dion := st.dion * SQR (FREQ1 / freq),
                              vion := st.vion * SQR (FREQ1 / freq) }
          match tropcorr env nav d.obs.time pos ae opt.tropopt with
          | none => (st, false)
          | some tv => ({ st with dtrp := tv.1, vtrp := tv.2 }, true)

/-- the residual row assembled for a retained observation (pntpos.cpp
lines 348-371): `prange` residual, design row with system dispatch, and
the row variance. -/
def rescodeRow (env : Env) (nav : Nav) (opt : PrcOpt) (dtr : ℚ)
    (x : List ℚ) (d : SatIn) (i : ℕ) (sys : Sys) (r : ℚ) (e : List ℚ)
    (st : RcState) : Row :=
  let pr := prange env nav opt d.obs
  let v0 := pr.1 - (r + dtr - CLIGHT * d.dts0 + st.dion + st.dtrp)
  let H0 : List ℚ := [-e.getD 0 0, -e.getD 1 0, -e.getD 2 0, 1, 0, 0, 0, 0]
  let v1 :=
    match sys with
    | Sys.SYS_GLO => v0 - x.getD 4 0
    | Sys.SYS_GAL => v0 - x.getD 5 0
    | Sys.SYS_CMP => v0 - x.getD 6 0
    | Sys.SYS_IRN => v0 - x.getD 7 0
    | _ => v0
  let H1 :=
    match sys with
    | Sys.SYS_GLO => H0.set 4 1
    | Sys.SYS_GAL => H0.set 5 1
    | Sys.SYS_CMP => H0.set 6 1
    | Sys.SYS_IRN => H0.set 7 1
    | _ => H0
  let varRow := varerr env opt (st.azel.getD i (0, 0)).2 sys + d.vare +
    pr.2 + st.vion + st.vtrp
  ⟨v1, H1, varRow⟩

/-- the tail of the `rescode` loop body (pntpos.cpp lines 345-371):
`prange`, the pseudorange residual row, and the `vsat/resp/ns/mask`
bookkeeping. -/
def rescodeFinish (env : Env) (nav : Nav) (opt : PrcOpt) (dtr : ℚ)
    (x : List ℚ) (d : SatIn) (i : ℕ) (sys : Sys) (r : ℚ) (e : List ℚ)
    (st : RcState) : RcState :=
  let pr := prange env nav opt d.obs
  if pr.1 = 0 then st
  else
    let ro := rescodeRow env nav opt dtr x d i sys r e st
    { st with rows := st.rows ++ [ro],
              ns := st.ns + 1,
              mask := st.mask.set (sysMaskIdx sys) true,
              vsat := st.vsat.set i true,
              resp := st.resp.set i ro.v }

/-- the `rescode` loop body from the `satexclude` test on (the part
shared by all visited observations that are not duplicated). -/
def rescodeBody (env : Env) (nav : Nav) (opt : PrcOpt) (iter : ℕ)
    (rr pos : List ℚ) (dtr : ℚ) (x : List ℚ) (d : SatIn) (i : ℕ)
    (sys : Sys) (st : RcState) : RcState :=
  if env.satexclude d.obs.sat d.vare d.svh then st
  else
    let ge := env.geodist d.rs rr
    if ge.1 ≤ 0 then st
    else
      let gr := rescodeGate env nav opt iter pos d i ge.2 st
      if gr.2 = false then gr.1
      else rescodeFinish env nav opt dtr x d i sys ge.1 ge.2 gr.1

/-- the observation loop of `rescode` (pntpos.cpp lines 306-372):
`for (i=*ns=0;i<n&&i<MAXOBS;i++)` with the duplicated-observation skip
(`i++; continue;`, which leaves the slots of the second member of the
pair untouched). -/
def rescodeLoop (env : Env) (nav : Nav) (opt : PrcOpt) (iter : ℕ)
    (rr pos : List ℚ) (dtr : ℚ) (x : List ℚ) :
    List SatIn → ℕ → RcState → RcState
  | [], _, st => st
  | [d], i, st =>
    if env.maxobs ≤ i then st
    else
      let st1 := rcSlotInit i st
      match env.satsys d.obs.sat with
      | Sys.SYS_ZERO => st1
      | sys => rescodeBody env nav opt iter rr pos dtr x d i sys st1
  | d :: d2 :: rest, i, st =>
    if env.maxobs ≤ i then st
    else
      let st1 := rcSlotInit i st
      match env.satsys d.obs.sat with
      | Sys.SYS_ZERO =>
        rescodeLoop env nav opt iter rr pos dtr x (d2 :: rest) (i + 1) st1
      | sys =>
        if i + 1 < env.maxobs ∧ d.obs.sat = d2.obs.sat then
          rescodeLoop env nav opt iter rr pos dtr x rest (i + 2) st1
        else
          rescodeLoop env nav opt iter rr pos dtr x (d2 :: rest) (i + 1)
            (rescodeBody env nav opt iter rr pos dtr x d i sys st1)

/-- the rank-deficiency pseudo-observations appended after the loop
(pntpos.cpp lines 373-379): for every unseen `mask[i]` a row with
residual 0, a single 1 in column `i+3` and variance `0.01`. -/
def pseudoRows (mask : List Bool) : List Row :=
  (List.range (NX - 3)).filterMap fun k =>
    if mask.getD k false then none
    else some ⟨0, (List.replicate NX 0).set (k + 3) 1, 1 / 100⟩

/-- `rescode(iter,obs,n,rs,dts,vare,svh,nav,x,opt,v,H,var,azel,vsat,resp,ns)`
(pntpos.cpp lines 289-381).  The result state carries the rows
(`nv = rows.length`), `ns`, the mask and the updated in/out arrays.  The
locals `dion dtrp vion vtrp` start at the indeterminate values supplied
by the environment because the source declares them without
initialisers. -/
def rescode (env : Env) (nav : Nav) (opt : PrcOpt) (iter : ℕ)
    (satdata : List SatIn) (x : List ℚ) (vsat0 : List Bool)
    (azel0 : List (ℚ × ℚ)) (resp0 : List ℚ) : RcState :=
  let rr := x.take 3
  let dtr := x.getD 3 0
  let pos := env.ecef2pos rr
  let st0 : RcState :=
    ⟨[], 0, List.replicate (NX - 3) false, env.dion0, env.dtrp0,
     env.vion0, env.vtrp0, vsat0, azel0, resp0⟩
  let st := rescodeLoop env nav opt iter rr pos dtr x satdata 0 st0
  { st with rows := st.rows ++ pseudoRows st.mask }

/-- `valsol(azel,vsat,n,opt,v,nv,nx,msg)` (pntpos.cpp lines 383-411):
chi-square gate on the weighted residuals, then GDOP gate over the
satellites with `vsat[i]` set.  Returns the status together with the
message buffer (unchanged when both gates pass). -/
def valsol (env : Env) (opt : PrcOpt) (azel : List (ℚ × ℚ))
    (vsat : List Bool) (n : ℕ) (v : List ℚ) (nv nx : ℕ) (msg : Msg) :
    Bool × Msg :=
  let vv := dotq (v.take nv) (v.take nv)
  if nv > nx ∧ vv > env.chisqr (nv - nx - 1) then
    (false, Msg.chiSquareError nv vv (env.chisqr (nv - nx - 1)))
  else
    let azels := (List.range n).filterMap fun i =>
      if vsat.getD i false then some (azel.getD i (0, 0)) else none
    let gdop := env.dops azels.length azels opt.elmin
    if gdop ≤ 0 ∨ gdop > opt.maxgdop then (false, Msg.gdopError nv gdop)
    else (true, msg)

/-- the `/* weighted by Std */` block of `estpos` (pntpos.cpp lines
437-442): each row of `v` and `H` divided by `sqrt(var[j])`. -/
def lsqWeight (env : Env) (rows : List Row) : List Row :=
  rows.map fun ro =>
    let sig := env.sqrtQ ro.var
    ⟨ro.v / sig, ro.H.map (· / sig), ro.var⟩

/-- the solution commit of the convergence branch of `estpos`
(pntpos.cpp lines 452-465), excluding the `stat`-conditional status
write. -/
def commitSol (satdata : List SatIn) (sol : Sol) (x Q : List ℚ) (ns : ℕ) :
    Sol :=
  { sol with
    typ := 0,
    time := (satdata.headD default).obs.time - x.getD 3 0 / CLIGHT,
    dtr := [x.getD 3 0 / CLIGHT, x.getD 4 0 / CLIGHT, x.getD 5 0 / CLIGHT,
            x.getD 6 0 / CLIGHT, x.getD 7 0 / CLIGHT],
    rr := [x.getD 0 0, x.getD 1 0, x.getD 2 0, 0, 0, 0],
    qr := [Q.getD 0 0, Q.getD 9 0, Q.getD 18 0,
           Q.getD 1 0, Q.getD 10 0, Q.getD 2 0],
    ns := ns, age := 0, ratioVal := 0 }

/-- the result record shared by `estpos`, `raim_fde` and `pntpos`:
return status, the solution, and the in/out buffers `azel`, `vsat`,
`resp`, `msg`. -/
structure SolveRes where
  stat : Bool
  sol : Sol
  azel : List (ℚ × ℚ)
  vsat : List Bool
  resp : List ℚ
  msg : Msg
deriving DecidableEq, Inhabited

/-- the Gauss-Newton loop of `estpos` (pntpos.cpp lines 427-478).
`fuel` counts the remaining iterations (`estpos` starts it at `MAXITR`),
`iter` is the loop counter `i`.  When the fuel runs out the source writes
`iteration divergent i=MAXITR`. -/
def estposIter (env : Env) (nav : Nav) (opt : PrcOpt)
    (satdata : List SatIn) (sol0 : Sol) :
    ℕ → ℕ → List ℚ → List Bool → List (ℚ × ℚ) → List ℚ → Msg → SolveRes
  | 0, iter, _x, vsat, azel, resp, _msg =>
    ⟨false, sol0, azel, vsat, resp, Msg.iterationDivergent iter⟩
  | fuel + 1, iter, x, vsat, azel, resp, msg =>
    let st := rescode env nav opt iter satdata x vsat azel resp
    let nv := st.rows.length
    if nv < NX then
      ⟨false, sol0, st.azel, st.vsat, st.resp, Msg.lackOfValidSats nv⟩
    else
      let wr := lsqWeight env st.rows
      match env.lsq (wr.map Row.H) (wr.map Row.v) NX nv with
      | Except.error info =>
        ⟨false, sol0, st.azel, st.vsat, st.resp, Msg.lsqError info⟩
      | Except.ok dq =>
        let dx := dq.1
        let x1 := zipAdd x dx
        if env.sqrtQ (dotq dx dx) < 1 / 10000 then
          let sol1 := commitSol satdata sol0 x1 dq.2 st.ns
          let vres := valsol env opt st.azel st.vsat satdata.length
            (wr.map Row.v) nv NX msg
          if vres.1 then
            ⟨true,
             { sol1 with stat := if opt.sateph = EPHOPT_SBAS
                 then SolStat.SOLQ_SBAS else SolStat.SOLQ_SINGLE },
             st.azel, st.vsat, st.resp, vres.2⟩
          else ⟨false, sol1, st.azel, st.vsat, st.resp, vres.2⟩
        else
          estposIter env nav opt satdata sol0 fuel (iter + 1) x1
            st.vsat st.azel st.resp msg

/-- `estpos(obs,n,rs,dts,vare,svh,nav,opt,sol,azel,vsat,resp,msg)`
(pntpos.cpp lines 413-479): seed `x[0..2]` from `sol->rr`, remaining
state components 0, then iterate. -/
def estpos (env : Env) (nav : Nav) (opt : PrcOpt) (satdata : List SatIn)
    (sol : Sol) (vsat : List Bool) (azel : List (ℚ × ℚ)) (resp : List ℚ)
    (msg : Msg) : SolveRes :=
  let x : List ℚ := [sol.rr.getD 0 0, sol.rr.getD 1 0, sol.rr.getD 2 0,
                     0, 0, 0, 0, 0]
  estposIter env nav opt satdata sol MAXITR 0 x vsat azel resp msg

/-- the state of the candidate loop of `raim_fde`: the buffers allocated
once before the loop (`sol_e`, `msg_e`, `vsat_e`, `azel_e`, `resp_e`, all
threaded through every `estpos` call), the running best `rms` (initially
100.0), the winner bookkeeping `stat`/`sat`, and the caller's in/out
buffers `sol`, `vsat`, `azel`, `resp`, `msg`. -/
structure RaimState where
  sol_e : Sol
  msg_e : Msg
  vsat_e : List Bool
  azel_e : List (ℚ × ℚ)
  resp_e : List ℚ
  rms : ℚ
  stat : Bool
  sat : ℕ
  sol : Sol
  vsat : List Bool
  azel : List (ℚ × ℚ)
  resp : List ℚ
  msg : Msg
deriving DecidableEq, Inhabited

/-- `for (j=nvsat=0,rms_e=0.0;j<n-1;j++) if (vsat_e[j]) nvsat++;`:
the number of satellites marked used in the reduced solution. -/
def raimNvsat (vsat_e : List Bool) (n1 : ℕ) : ℕ :=
  ((List.range n1).filter fun j => vsat_e.getD j false).length

/-- the residual sum of squares over the marked satellites of the reduced
solution (`rms_e += SQR(resp_e[j])`). -/
def raimSumsq (resp_e : List ℚ) (vsat_e : List Bool) (n1 : ℕ) : ℚ :=
  (((List.range n1).filter fun j => vsat_e.getD j false).map
    fun j => SQR (resp_e.getD j 0)).sum

/-- the `/* save result */` block of `raim_fde` (pntpos.cpp lines
531-543): copy the reduced-geometry outputs back, mark the winner, and
overwrite the caller's message with `msg_e`. -/
def raimSave (satdata : List SatIn) (n i : ℕ) (st : RaimState)
    (rms_e : ℚ) : RaimState :=
  let back := (List.range n).foldl
    (fun acc j =>
      if j = i then acc
      else
        let k := if j < i then j else j - 1
        { acc with azel := acc.azel.set j (st.azel_e.getD k (0, 0)),
                   vsat := acc.vsat.set j (st.vsat_e.getD k false),
                   resp := acc.resp.set j (st.resp_e.getD k 0) })
    st
  { back with stat := true, sol := st.sol_e,
              sat := (satdata.getD i default).obs.sat, rms := rms_e,
              vsat := back.vsat.set i false, msg := st.msg_e }

/-- one candidate of the `raim_fde` exclusion loop (pntpos.cpp lines
498-544): run `estpos` without observation `i`, count the used
satellites, form the residual RMS, and save the result unless
`rms_e > rms`. -/
def raimStep (env : Env) (nav : Nav) (opt : PrcOpt)
    (satdata : List SatIn) (n : ℕ) (i : ℕ) (st : RaimState) : RaimState :=
  let r := estpos env nav opt (satdata.eraseIdx i) st.sol_e st.vsat_e
    st.azel_e st.resp_e st.msg_e
  let st1 := { st with sol_e := r.sol, msg_e := r.msg, vsat_e := r.vsat,
                       azel_e := r.azel, resp_e := r.resp }
  if r.stat = false then st1
  else
    let nvsat := raimNvsat st1.vsat_e (n - 1)
    if nvsat < 5 then st1
    else
      let rms_e := env.sqrtQ
        (raimSumsq st1.resp_e st1.vsat_e (n - 1) / (nvsat : ℚ))
      if rms_e > st1.rms then st1
      else raimSave satdata n i st1 rms_e

/-- the initial state of the `raim_fde` candidate loop: `sol_e={{0}}`,
`azel_e=zeros(2,n)`, while `msg_e`, `vsat_e`, `resp_e` are uninitialised
allocations whose contents come from the environment; `rms=100.0`,
`stat=0`, `sat=0`. -/
def raimInit (env : Env) (n : ℕ) (sol : Sol) (azel : List (ℚ × ℚ))
    (vsat : List Bool) (resp : List ℚ) (msg : Msg) : RaimState :=
  ⟨zeroSol, env.msgEJunk, env.vsatEJunk n, List.replicate n (0, 0),
   env.respEJunk n, 100, false, 0, sol, vsat, azel, resp, msg⟩

/-- `raim_fde(obs,n,rs,dts,vare,svh,nav,opt,sol,azel,vsat,resp,msg)`
(pntpos.cpp lines 481-553). -/
def raim_fde (env : Env) (nav : Nav) (opt : PrcOpt)
    (satdata : List SatIn) (n : ℕ) (sol : Sol) (azel : List (ℚ × ℚ))
    (vsat : List Bool) (resp : List ℚ) (msg : Msg) : RaimState :=
  (List.range n).foldl (fun st i => raimStep env nav opt satdata n i st)
    (raimInit env n sol azel vsat resp msg)

/-- `e = E^T a` for the column-major 3x3 matrix `E` of `xyz2enu`
(`matmul("TN",3,1,3,1.0,E,a,0.0,e)`). -/
def matmulTN3 (E a : List ℚ) : List ℚ :=
  (List.range 3).map fun i =>
    (List.range 3).foldl (fun s k => s + E.getD (k + i * 3) 0 * a.getD k 0) 0

/-- the observation loop of `resdop` (pntpos.cpp lines 567-600). -/
def resdopLoop (env : Env) (nav : Nav) (rr x : List ℚ) (E : List ℚ)
    (azel : List (ℚ × ℚ)) (vsat : List Bool) (err : ℚ) :
    List SatIn → ℕ → List DopRow → List DopRow
  | [], _, acc => acc
  | d :: rest, i, acc =>
    if env.maxobs ≤ i then acc
    else
      let freq := env.sat2freq d.obs.sat d.obs.code1 nav
      let vel : List ℚ := [d.rs.getD 3 0, d.rs.getD 4 0, d.rs.getD 5 0]
      if d.obs.D0 = 0 ∨ freq = 0 ∨ vsat.getD i false = false ∨
          env.sqrtQ (dotq vel vel) ≤ 0 then
        resdopLoop env nav rr x E azel vsat err rest (i + 1) acc
      else
        let az := (azel.getD i (0, 0)).1
        let el := (azel.getD i (0, 0)).2
        let cosel := env.cosQ el
        let a : List ℚ := [env.sinQ az * cosel, env.cosQ az * cosel,
                           env.sinQ el]
        let e := matmulTN3 E a
        let vs : List ℚ := [d.rs.getD 3 0 - x.getD 0 0,
                            d.rs.getD 4 0 - x.getD 1 0,
                            d.rs.getD 5 0 - x.getD 2 0]
        let rate := dotq vs e + OMGE / CLIGHT *
          (d.rs.getD 4 0 * rr.getD 0 0 + d.rs.getD 1 0 * x.getD 0 0 -
           d.rs.getD 3 0 * rr.getD 1 0 - d.rs.getD 0 0 * x.getD 1 0)
        let sig := if err ≤ 0 then 1 else err * CLIGHT / freq
        let v := (-d.obs.D0 * CLIGHT / freq -
          (rate + x.getD 3 0 - CLIGHT * d.dts1)) / sig
        let H : List ℚ := [-e.getD 0 0 / sig, -e.getD 1 0 / sig,
                           -e.getD 2 0 / sig, 1 / sig]
        resdopLoop env nav rr x E azel vsat err rest (i + 1) (acc ++ [⟨v, H⟩])

/-- `resdop(obs,n,rs,dts,nav,rr,x,azel,vsat,err,v,H)` (pntpos.cpp lines
555-602). -/
def resdop (env : Env) (nav : Nav) (satdata : List SatIn) (rr x : List ℚ)
    (azel : List (ℚ × ℚ)) (vsat : List Bool) (err : ℚ) : List DopRow :=
  let pos := env.ecef2pos rr
  let E := env.xyz2enu pos
  resdopLoop env nav rr x E azel vsat err satdata 0 []

/-- the Gauss-Newton loop of `estvel` (pntpos.cpp lines 616-637):
`some (x, Q)` exactly when an iteration converges
(`norm(dx,4) < 1E-6`) after at least 4 Doppler residuals and a
successful `lsq`; `none` on every abort path. -/
def estvelLoop (env : Env) (nav : Nav) (satdata : List SatIn)
    (rr : List ℚ) (azel : List (ℚ × ℚ)) (vsat : List Bool) (err : ℚ) :
    ℕ → List ℚ → Option (List ℚ × List ℚ)
  | 0, _ => none
  | fuel + 1, x =>
    let rows := resdop env nav satdata rr x azel vsat err
    if rows.length < 4 then none
    else
      match env.lsq (rows.map DopRow.H) (rows.map DopRow.v) 4
          rows.length with
      | Except.error _ => none
      | Except.ok dq =>
        let x1 := zipAdd x dq.1
        if env.sqrtQ (dotq dq.1 dq.1) < 1 / 1000000 then some (x1, dq.2)
        else estvelLoop env nav satdata rr azel vsat err fuel x1

/-- the convergence write-back of `estvel` (pntpos.cpp lines 628-634):
`sol->rr[3..5] = x[0..2]` and `qv` filled from the 4x4 `Q`. -/
def estvelWrite (sol : Sol) (x Q : List ℚ) : Sol :=
  { sol with
    rr := [sol.rr.getD 0 0, sol.rr.getD 1 0, sol.rr.getD 2 0,
           x.getD 0 0, x.getD 1 0, x.getD 2 0],
    qv := [Q.getD 0 0, Q.getD 5 0, Q.getD 10 0,
           Q.getD 1 0, Q.getD 6 0, Q.getD 2 0] }

/-- `estvel(obs,n,rs,dts,nav,opt,sol,azel,vsat)` (pntpos.cpp lines
604-639): linearises about `sol->rr` and writes `sol` only on
convergence. -/
def estvel (env : Env) (nav : Nav) (opt : PrcOpt) (satdata : List SatIn)
    (sol : Sol) (azel : List (ℚ × ℚ)) (vsat : List Bool) : Sol :=
  match estvelLoop env nav satdata sol.rr azel vsat (opt.err.getD 4 0)
      MAXITR [0, 0, 0, 0] with
  | none => sol
  | some xq => estvelWrite sol xq.1 xq.2

/-- the `opt_` adjustment at the top of `pntpos` (lines 674-677). -/
def adjustOpt (opt : PrcOpt) : PrcOpt :=
  if opt.mode ≠ PMODE_SINGLE then
    { opt with ionoopt := IonoOpt.BRDC, tropopt := TropOpt.SAAS }
  else opt

/-- zip the observations with their `satposs` geometry rows. -/
def mkSatData (env : Env) (nav : Nav) (sateph : ℕ) (time : ℚ)
    (obs : List ObsD) : List SatIn :=
  (obs.zip (env.satposs time obs nav sateph)).map fun p =>
    ⟨p.1, p.2.rs, p.2.dts0, p.2.dts1, p.2.vare, p.2.svh⟩

/-- the position stage of `pntpos` for `n > 0` (pntpos.cpp lines
669-690 and 853-856): set `sol->time`, clear `msg`, run `satposs` and
`estpos`, and run `raim_fde` when `estpos` failed, `n >= 6` and
`opt->posopt[4]` is set.  The stripped code between these points is the
ROS/WLS/CSV publishing plumbing, which never writes `sol`, `vsat`,
`azel_`, `resp` or `msg`. -/
def pntposMid (env : Env) (nav : Nav) (opt : PrcOpt) (obs : List ObsD)
    (sol0 : Sol) : SolveRes :=
  let sol := { sol0 with time := (obs.headD default).time }
  let opt_ := adjustOpt opt
  let n := obs.length
  let satdata := mkSatData env nav opt_.sateph sol.time obs
  let r := estpos env nav opt_ satdata sol
    (List.replicate env.maxobs false) (List.replicate n (0, 0))
    (env.respJunk n) Msg.empty
  if r.stat = false ∧ 6 ≤ n ∧ opt.posopt4 then
    let st := raim_fde env nav opt_ satdata n r.sol r.azel r.vsat r.resp
      r.msg
    ⟨st.stat, st.sol, st.azel, st.vsat, st.resp, st.msg⟩
  else r

/-- `pntpos(obs,n,nav,opt,sol,azel,ssat,msg)` (pntpos.cpp lines
653-964), restricted to the estimation core: `sol->stat=SOLQ_NONE`, the
`n<=0` early exit, the position stage, and the unconditional `estvel`
call, whose source form is literally `if (stat) estvel(...) else
estvel(...)` with identical arguments in both branches. -/
def pntpos (env : Env) (nav : Nav) (opt : PrcOpt) (obs : List ObsD)
    (sol0 : Sol) (_msg0 : Msg) : SolveRes :=
  let sol := { sol0 with stat := SolStat.SOLQ_NONE }
  if obs.length = 0 then ⟨false, sol, [], [], [], Msg.noObsData⟩
  else
    let mid := pntposMid env nav opt obs sol
    let opt_ := adjustOpt opt
    let satdata := mkSatData env nav opt_.sateph (obs.headD default).time
      obs
    let solF :=
      if mid.stat then estvel env nav opt_ satdata mid.sol mid.azel mid.vsat
      else estvel env nav opt_ satdata mid.sol mid.azel mid.vsat
    { mid with sol := solF }

/-- an exact square root on the rationals used to instantiate `Env.sqrtQ`
in concrete runs; it agrees with the real square root on every value it
is applied to below (ratios of perfect squares). -/
def qsqrt (q : ℚ) : ℚ := (Nat.sqrt q.num.natAbs : ℚ) / (Nat.sqrt q.den : ℚ)

/-- empty navigation data: no broadcast records, zero code biases. -/
def nav1 : Nav := ⟨[], [], fun _ _ => 0, [], []⟩

/-- single-mode options: all error scalars zero, `maxgdop = 30`,
RAIM enabled. -/
def opt1 : PrcOpt :=
  ⟨0, IonoOpt.OFF, TropOpt.OFF, 0, 0, [], [0, 0, 0, 0, 0], 30, true⟩

/-- a concrete environment: every satellite is GPS, none excluded,
`geodist` puts every satellite at range 99 on the line of sight
`(0,0,1)`, `lsq` returns the zero step (so the first Gauss-Newton
iteration converges), the chi-square table is huge and GDOP is 1 (so
`valsol` passes), and the uninitialised locals of `rescode` hold 0. -/
def env1 : Env where
  d2r := 1 / 100
  maxobs := 24
  satsys := fun _ => Sys.SYS_GPS
  satexclude := fun _ _ _ => false
  geodist := fun _ _ => (99, [0, 0, 1])
  ecef2pos := fun p => p
  xyz2enu := fun _ => [1, 0, 0, 0, 1, 0, 0, 0, 1]
  satazel := fun _ _ => (0, 1)
  testsnr := fun _ _ _ _ _ => false
  sat2freq := fun _ _ _ => FREQ1
  getseleph := fun _ => false
  ionmodel := fun _ _ _ _ => 0
  sbsioncorr := fun _ _ _ _ => some (0, 0)
  iontec := fun _ _ _ _ => some (0, 0)
  tropmodel := fun _ _ _ _ => 0
  sbstropcorr := fun _ _ _ => (0, 0)
  dops := fun _ _ _ => 1
  chisqr := fun _ => 1000000
  lsq := fun _ _ _ _ => Except.ok (List.replicate 8 0, List.replicate 64 0)
  sqrtQ := qsqrt
  sinQ := fun _ => 1
  cosQ := fun _ => 1
  satposs := fun _ obs _ _ =>
    obs.map fun o => ⟨[(o.sat : ℚ), 0, 0, 0, 0, 0], 0, 0, 0, 0⟩
  dion0 := 0
  dtrp0 := 0
  vion0 := 0
  vtrp0 := 0
  vsatEJunk := fun n => List.replicate n false
  respEJunk := fun n => List.replicate n 0
  msgEJunk := Msg.empty
  respJunk := fun n => List.replicate n 0

/-- an observation with pseudorange 100 m on the primary frequency. -/
def mkObs (sat : ℕ) : ObsD := ⟨sat, 0, 100, 0, 0, 0, 0, 0, 0⟩

def obs1 : List ObsD :=
  [mkObs 1, mkObs 2, mkObs 3, mkObs 4, mkObs 5, mkObs 6]

/-- the `satposs` row produced by `env1` for the observation `mkObs s`. -/
def satD (s : ℕ) : SatIn := ⟨mkObs s, [(s : ℚ), 0, 0, 0, 0, 0], 0, 0, 0, 0⟩

def satdata1 : List SatIn :=
  [satD 1, satD 2, satD 3, satD 4, satD 5, satD 6]

def x0 : List ℚ := [0, 0, 0, 0, 0, 0, 0, 0]

def azel1 : List (ℚ × ℚ) := List.replicate 6 (0, 0)

def vsat1 : List Bool := List.replicate 6 false

def resp1 : List ℚ := List.replicate 6 0

/-- `env1` with nonzero indeterminate values in the uninitialised
`rescode` locals `dion` (1 m) and `vion` (4 m^2). -/
def env9 : Env := { env1 with dion0 := 1, vion0 := 4 }

def satdata9 : List SatIn := [satD 1]

/-- the invariant linking the `mask` array of `rescode` to the assembled
rows: every seen mask slot `k` is witnessed by a row carrying a 1 in the
state column `k+3`. -/
def maskInvariant (st : RcState) : Prop :=
  ∀ k, k < 5 → st.mask.getD k false = true →
    ∃ ro ∈ st.rows, ro.H.getD (k + 3) 0 = 1

/-- the solution committed by every converging `estpos` run under `env1`:
all-zero state, 5 used satellites, status `SOLQ_SINGLE`. -/
def solC : Sol := { zeroSol with ns := 5, stat := SolStat.SOLQ_SINGLE }

/-- one converging Gauss-Newton step of `estvel`: at the linearisation
point `xa` there are at least 4 Doppler residual rows, `lsq` succeeds with
step `dx` and covariance `Q`, the updated state is `x1 = xa + dx`, and
`norm(dx,4) < 1E-6`. -/
def ConvergedStep (env : Env) (nav : Nav) (satdata : List SatIn)
    (rr : List ℚ) (azel : List (ℚ × ℚ)) (vsat : List Bool) (err : ℚ)
    (xa x1 Q : List ℚ) : Prop :=
  let rows := resdop env nav satdata rr xa azel vsat err
  4 ≤ rows.length ∧ ∃ dx,
    env.lsq (rows.map DopRow.H) (rows.map DopRow.v) 4 rows.length =
      Except.ok (dx, Q) ∧
    x1 = zipAdd xa dx ∧ env.sqrtQ (dotq dx dx) < 1 / 1000000


/-! Helper lemmas: concrete evaluation of the model under `env1`. -/

theorem off_ne_iflc : ¬ (IonoOpt.OFF = IonoOpt.IFLC) := by decide

set_option maxHeartbeats 4000000 in
/-- evaluation of `rescode` under `env1` at iteration 0 on five satellites
with pairwise distinct consecutive ids: five retained rows with residual 1
and four pseudo-observation rows, and only `mask[0]` seen. -/
theorem rescode_eval1 (s1 s2 s3 s4 s5 : ℕ)
    (h12 : ¬ (s1 = s2)) (h23 : ¬ (s2 = s3)) (h34 : ¬ (s3 = s4)) (h45 : ¬ (s4 = s5))
    (va vb vc vd ve vf : Bool) (a1 a2 a3 a4 a5 a6 : ℚ × ℚ) (r1 r2 r3 r4 r5 r6 : ℚ) :
    rescode env1 nav1 opt1 0 [satD s1, satD s2, satD s3, satD s4, satD s5] x0
      [va, vb, vc, vd, ve, vf] [a1, a2, a3, a4, a5, a6] [r1, r2, r3, r4, r5, r6] =
    ⟨[⟨1, [0, 0, -1, 1, 0, 0, 0, 0], 9/100⟩, ⟨1, [0, 0, -1, 1, 0, 0, 0, 0], 9/100⟩,
      ⟨1, [0, 0, -1, 1, 0, 0, 0, 0], 9/100⟩, ⟨1, [0, 0, -1, 1, 0, 0, 0, 0], 9/100⟩,
      ⟨1, [0, 0, -1, 1, 0, 0, 0, 0], 9/100⟩,
      ⟨0, [0, 0, 0, 0, 1, 0, 0, 0], 1/100⟩, ⟨0, [0, 0, 0, 0, 0, 1, 0, 0], 1/100⟩,
      ⟨0, [0, 0, 0, 0, 0, 0, 1, 0], 1/100⟩, ⟨0, [0, 0, 0, 0, 0, 0, 0, 1], 1/100⟩],
     5, [true, false, false, false, false], 0, 0, 0, 0,
     [true, true, true, true, true, vf],
     [(0, 0), (0, 0), (0, 0), (0, 0), (0, 0), a6],
     [1, 1, 1, 1, 1, r6]⟩ := by
  norm_num [rescode, rescodeLoop, rescodeBody, rescodeGate,
    rescodeFinish, rescodeRow, rcSlotInit, pseudoRows, sysMaskIdx, prange, gettgd, varerr,
    env1, nav1, opt1, satD, mkObs, x0, h12, h23, h34, h45,
    SQR, NX, CLIGHT, ERR_CBIAS, List.range_succ, off_ne_iflc]
  exact ⟨rfl, rfl⟩

set_option maxHeartbeats 4000000 in
/-- evaluation of `estpos` under `env1` on five satellites with distinct
consecutive ids, seeded from any solution whose position prior is 0: the
zero `lsq` step converges in the first iteration, `valsol` passes, and the
committed solution uses 5 satellites with residuals 1. -/
theorem estpos_eval1 (s1 s2 s3 s4 s5 : ℕ)
    (h12 : ¬ (s1 = s2)) (h23 : ¬ (s2 = s3)) (h34 : ¬ (s3 = s4)) (h45 : ¬ (s4 = s5))
    (sol : Sol) (hr0 : sol.rr.getD 0 0 = 0) (hr1 : sol.rr.getD 1 0 = 0)
    (hr2 : sol.rr.getD 2 0 = 0)
    (va vb vc vd ve vf : Bool) (a1 a2 a3 a4 a5 a6 : ℚ × ℚ) (r1 r2 r3 r4 r5 r6 : ℚ) :
    estpos env1 nav1 opt1 [satD s1, satD s2, satD s3, satD s4, satD s5] sol
      [va, vb, vc, vd, ve, vf] [a1, a2, a3, a4, a5, a6] [r1, r2, r3, r4, r5, r6]
      Msg.empty =
    ⟨true,
     { sol with typ := 0, time := 0, dtr := [0, 0, 0, 0, 0],
                rr := [0, 0, 0, 0, 0, 0], qr := [0, 0, 0, 0, 0, 0],
                ns := 5, age := 0, ratioVal := 0, stat := SolStat.SOLQ_SINGLE },
     [(0, 0), (0, 0), (0, 0), (0, 0), (0, 0), a6],
     [true, true, true, true, true, vf],
     [1, 1, 1, 1, 1, r6], Msg.empty⟩ := by
  have hresc := rescode_eval1 s1 s2 s3 s4 s5 h12 h23 h34 h45 va vb vc vd ve vf
    a1 a2 a3 a4 a5 a6 r1 r2 r3 r4 r5 r6
  simp only [estpos, hr0, hr1, hr2, MAXITR]
  rw [show (10 : ℕ) = 9 + 1 from rfl, estposIter,
    show x0 = [(0:ℚ),0,0,0,0,0,0,0] from rfl] at *
  rw [hresc]
  norm_num [valsol, lsqWeight, commitSol, zipAdd, qsqrt, dotq, SQR,
    env1, nav1, opt1, satD, mkObs, NX, CLIGHT, EPHOPT_SBAS, List.range_succ]

set_option maxHeartbeats 1000000 in
/-- the first RAIM candidate (excluding observation 0, satellite 1)
qualifies with RMS 1 and is saved, displacing the initial 100.0 bound. -/
theorem raimStep1 :
    raimStep env1 nav1 opt1 satdata1 6 0
      (raimInit env1 6 zeroSol azel1 vsat1 resp1 Msg.empty) =
    ⟨solC, Msg.empty, [true, true, true, true, true, false],
     [(0,0), (0,0), (0,0), (0,0), (0,0), (0,0)], [1, 1, 1, 1, 1, 0], 1, true, 1,
     solC, [false, true, true, true, true, true],
     [(0,0), (0,0), (0,0), (0,0), (0,0), (0,0)], [0, 1, 1, 1, 1, 1],
     Msg.empty⟩ := by
  have he := estpos_eval1 2 3 4 5 6 (by decide) (by decide) (by decide) (by decide)
    zeroSol rfl rfl rfl false false false false false false
    (0,0) (0,0) (0,0) (0,0) (0,0) (0,0) 0 0 0 0 0 0
  simp only [raimStep, raimInit, satdata1, List.eraseIdx, zeroSol, azel1, vsat1, resp1,
    show Env.vsatEJunk env1 6 = [false,false,false,false,false,false] from rfl,
    show Env.respEJunk env1 6 = [0,0,0,0,0,0] from rfl,
    show Env.msgEJunk env1 = Msg.empty from rfl,
    show List.replicate 6 ((0:ℚ),(0:ℚ)) = [(0,0),(0,0),(0,0),(0,0),(0,0),(0,0)] from rfl,
    show List.replicate 6 (0:ℚ) = [0,0,0,0,0,0] from rfl,
    show List.replicate 6 false = [false,false,false,false,false,false] from rfl,
    show List.replicate 5 (0:ℚ) = [0,0,0,0,0] from rfl] at *
  rw [he]
  norm_num [raimNvsat, raimSumsq, raimSave, qsqrt, SQR, dotq, env1, solC, zeroSol,
    List.range_succ]
  repeat' apply And.intro
  all_goals rfl

set_option maxHeartbeats 1000000 in
/-- the second RAIM candidate has the same RMS 1; under the source
comparison `rms_e > rms` it is *not* skipped and displaces candidate 0. -/
theorem raimStep2 :
    raimStep env1 nav1 opt1 satdata1 6 1
      ⟨solC, Msg.empty, [true, true, true, true, true, false],
       [(0,0), (0,0), (0,0), (0,0), (0,0), (0,0)], [1, 1, 1, 1, 1, 0], 1, true, 1,
       solC, [false, true, true, true, true, true],
       [(0,0), (0,0), (0,0), (0,0), (0,0), (0,0)], [0, 1, 1, 1, 1, 1],
       Msg.empty⟩ =
    ⟨solC, Msg.empty, [true, true, true, true, true, false],
     [(0,0), (0,0), (0,0), (0,0), (0,0), (0,0)], [1, 1, 1, 1, 1, 0], 1, true, 2,
     solC, [true, false, true, true, true, true],
     [(0,0), (0,0), (0,0), (0,0), (0,0), (0,0)], [1, 1, 1, 1, 1, 1],
     Msg.empty⟩ := by
  have he := estpos_eval1 1 3 4 5 6 (by decide) (by decide) (by decide) (by decide)
    solC rfl rfl rfl true true true true true false
    (0,0) (0,0) (0,0) (0,0) (0,0) (0,0) 1 1 1 1 1 0
  simp only [raimStep, satdata1, List.eraseIdx]
  rw [he]
  norm_num [raimNvsat, raimSumsq, raimSave, qsqrt, SQR, dotq, env1, solC, zeroSol,
    List.range_succ]
  repeat' apply And.intro
  all_goals rfl

set_option maxHeartbeats 1000000 in
/-- RAIM candidate 2 also qualifies with RMS 1 and displaces the
incumbent. -/
theorem raimStep3 :
    raimStep env1 nav1 opt1 satdata1 6 2
      ⟨solC, Msg.empty, [true, true, true, true, true, false],
       [(0,0), (0,0), (0,0), (0,0), (0,0), (0,0)], [1, 1, 1, 1, 1, 0], 1, true, 2,
       solC, [true, false, true, true, true, true],
       [(0,0), (0,0), (0,0), (0,0), (0,0), (0,0)], [1, 1, 1, 1, 1, 1],
       Msg.empty⟩ =
    ⟨solC, Msg.empty, [true, true, true, true, true, false],
     [(0,0), (0,0), (0,0), (0,0), (0,0), (0,0)], [1, 1, 1, 1, 1, 0], 1, true, 3,
     solC, [true, true, false, true, true, true],
     [(0,0), (0,0), (0,0), (0,0), (0,0), (0,0)], [1, 1, 1, 1, 1, 1],
     Msg.empty⟩ := by
  have he := estpos_eval1 1 2 4 5 6 (by decide) (by decide) (by decide) (by decide)
    solC rfl rfl rfl true true true true true false
    (0,0) (0,0) (0,0) (0,0) (0,0) (0,0) 1 1 1 1 1 0
  simp only [raimStep, satdata1, List.eraseIdx]
  rw [he]
  norm_num [raimNvsat, raimSumsq, raimSave, qsqrt, SQR, dotq, env1, solC, zeroSol,
    List.range_succ]
  repeat' apply And.intro
  all_goals rfl


set_option maxHeartbeats 1000000 in
/-- RAIM candidate 3 also qualifies with RMS 1 and displaces the
incumbent. -/
theorem raimStep4 :
    raimStep env1 nav1 opt1 satdata1 6 3
      ⟨solC, Msg.empty, [true, true, true, true, true, false],
       [(0,0), (0,0), (0,0), (0,0), (0,0), (0,0)], [1, 1, 1, 1, 1, 0], 1, true, 3,
       solC, [true, true, false, true, true, true],
       [(0,0), (0,0), (0,0), (0,0), (0,0), (0,0)], [1, 1, 1, 1, 1, 1],
       Msg.empty⟩ =
    ⟨solC, Msg.empty, [true, true, true, true, true, false],
     [(0,0), (0,0), (0,0), (0,0), (0,0), (0,0)], [1, 1, 1, 1, 1, 0], 1, true, 4,
     solC, [true, true, true, false, true, true],
     [(0,0), (0,0), (0,0), (0,0), (0,0), (0,0)], [1, 1, 1, 1, 1, 1],
     Msg.empty⟩ := by
  have he := estpos_eval1 1 2 3 5 6 (by decide) (by decide) (by decide) (by decide)
    solC rfl rfl rfl true true true true true false
    (0,0) (0,0) (0,0) (0,0) (0,0) (0,0) 1 1 1 1 1 0
  simp only [raimStep, satdata1, List.eraseIdx]
  rw [he]
  norm_num [raimNvsat, raimSumsq, raimSave, qsqrt, SQR, dotq, env1, solC, zeroSol,
    List.range_succ]
  repeat' apply And.intro
  all_goals rfl


set_option maxHeartbeats 1000000 in
/-- RAIM candidate 4 also qualifies with RMS 1 and displaces the
incumbent. -/
theorem raimStep5 :
    raimStep env1 nav1 opt1 satdata1 6 4
      ⟨solC, Msg.empty, [true, true, true, true, true, false],
       [(0,0), (0,0), (0,0), (0,0), (0,0), (0,0)], [1, 1, 1, 1, 1, 0], 1, true, 4,
       solC, [true, true, true, false, true, true],
       [(0,0), (0,0), (0,0), (0,0), (0,0), (0,0)], [1, 1, 1, 1, 1, 1],
       Msg.empty⟩ =
    ⟨solC, Msg.empty, [true, true, true, true, true, false],
     [(0,0), (0,0), (0,0), (0,0), (0,0), (0,0)], [1, 1, 1, 1, 1, 0], 1, true, 5,
     solC, [true, true, true, true, false, true],
     [(0,0), (0,0), (0,0), (0,0), (0,0), (0,0)], [1, 1, 1, 1, 1, 1],
     Msg.empty⟩ := by
  have he := estpos_eval1 1 2 3 4 6 (by decide) (by decide) (by decide) (by decide)
    solC rfl rfl rfl true true true true true false
    (0,0) (0,0) (0,0) (0,0) (0,0) (0,0) 1 1 1 1 1 0
  simp only [raimStep, satdata1, List.eraseIdx]
  rw [he]
  norm_num [raimNvsat, raimSumsq, raimSave, qsqrt, SQR, dotq, env1, solC, zeroSol,
    List.range_succ]
  repeat' apply And.intro
  all_goals rfl


set_option maxHeartbeats 1000000 in
/-- RAIM candidate 5 also qualifies with RMS 1 and displaces the
incumbent. -/
theorem raimStep6 :
    raimStep env1 nav1 opt1 satdata1 6 5
      ⟨solC, Msg.empty, [true, true, true, true, true, false],
       [(0,0), (0,0), (0,0), (0,0), (0,0), (0,0)], [1, 1, 1, 1, 1, 0], 1, true, 5,
       solC, [true, true, true, true, false, true],
       [(0,0), (0,0), (0,0), (0,0), (0,0), (0,0)], [1, 1, 1, 1, 1, 1],
       Msg.empty⟩ =
    ⟨solC, Msg.empty, [true, true, true, true, true, false],
     [(0,0), (0,0), (0,0), (0,0), (0,0), (0,0)], [1, 1, 1, 1, 1, 0], 1, true, 6,
     solC, [true, true, true, true, true, false],
     [(0,0), (0,0), (0,0), (0,0), (0,0), (0,0)], [1, 1, 1, 1, 1, 1],
     Msg.empty⟩ := by
  have he := estpos_eval1 1 2 3 4 5 (by decide) (by decide) (by decide) (by decide)
    solC rfl rfl rfl true true true true true false
    (0,0) (0,0) (0,0) (0,0) (0,0) (0,0) 1 1 1 1 1 0
  simp only [raimStep, satdata1, List.eraseIdx]
  rw [he]
  norm_num [raimNvsat, raimSumsq, raimSave, qsqrt, SQR, dotq, env1, solC, zeroSol,
    List.range_succ]
  repeat' apply And.intro
  all_goals rfl

set_option maxHeartbeats 1000000 in
/-- the full `raim_fde` run on six equal-residual candidates: every
candidate qualifies with RMS 1, and the exclusion finally committed is the
*last* one, satellite 6. -/
theorem raim_chain :
    raim_fde env1 nav1 opt1 satdata1 6 zeroSol azel1 vsat1 resp1 Msg.empty =
    ⟨solC, Msg.empty, [true, true, true, true, true, false],
     [(0,0), (0,0), (0,0), (0,0), (0,0), (0,0)], [1, 1, 1, 1, 1, 0], 1, true, 6,
     solC, [true, true, true, true, true, false],
     [(0,0), (0,0), (0,0), (0,0), (0,0), (0,0)], [1, 1, 1, 1, 1, 1],
     Msg.empty⟩ := by
  rw [raim_fde, show List.range 6 = [0,1,2,3,4,5] from rfl]
  simp only [List.foldl_cons, List.foldl_nil]
  rw [raimStep1, raimStep2, raimStep3, raimStep4, raimStep5, raimStep6]


/-! List helper lemmas. -/

theorem getD_set_same {α : Type} (l : List α) (i : ℕ) (a : α) :
    (l.set i a).getD i a = a := by
  induction l generalizing i with
  | nil => simp [List.set]
  | cons b l ih =>
    cases i with
    | zero => rfl
    | succ j => simpa [List.set, List.getD] using ih j

theorem getD_set_ne {α : Type} (l : List α) (i j : ℕ) (a d : α)
    (h : ¬ (i = j)) : (l.set i a).getD j d = l.getD j d := by
  induction l generalizing i j with
  | nil => simp [List.set]
  | cons b l ih =>
    cases i with
    | zero =>
      cases j with
      | zero => exact absurd rfl h
      | succ j2 => rfl
    | succ i2 =>
      cases j with
      | zero => rfl
      | succ j2 =>
        simpa [List.set, List.getD] using ih i2 j2 (fun hh => h (by rw [hh]))

theorem getD_set_self {α : Type} (l : List α) (i : ℕ) (a d : α)
    (h : i < l.length) : (l.set i a).getD i d = a := by
  induction l generalizing i with
  | nil => simp at h
  | cons b l ih =>
    cases i with
    | zero => rfl
    | succ j =>
      simpa [List.set, List.getD] using ih j (by simpa using h)

theorem getD_replicate_self {α : Type} (n k : ℕ) (a : α) :
    (List.replicate n a).getD k a = a := by
  induction n generalizing k with
  | zero => simp [List.getD]
  | succ m ih =>
    cases k with
    | zero => rfl
    | succ k2 => simp [List.replicate, List.getD]

/-! Structural lemmas about the `rescode` loop body. -/

theorem rescodeGate_frame (env : Env) (nav : Nav) (opt : PrcOpt) (iter : ℕ)
    (pos : List ℚ) (d : SatIn) (i : ℕ) (e : List ℚ) (st : RcState) :
    ((rescodeGate env nav opt iter pos d i e st).1).rows = st.rows ∧
    ((rescodeGate env nav opt iter pos d i e st).1).ns = st.ns ∧
    ((rescodeGate env nav opt iter pos d i e st).1).mask = st.mask ∧
    ((rescodeGate env nav opt iter pos d i e st).1).vsat = st.vsat ∧
    ((rescodeGate env nav opt iter pos d i e st).1).resp = st.resp := by
  simp only [rescodeGate]
  repeat' split
  all_goals simp

theorem rescodeRow_H_maskIdx (env : Env) (nav : Nav) (opt : PrcOpt) (dtr : ℚ)
    (x : List ℚ) (d : SatIn) (i : ℕ) (sys : Sys) (r : ℚ) (e : List ℚ)
    (st : RcState) :
    (rescodeRow env nav opt dtr x d i sys r e st).H.getD
      (sysMaskIdx sys + 3) 0 = 1 := by
  cases sys <;> rfl

/-- every `rescode` body invocation either leaves the row buffers alone
(one of the skip paths fired) or appends exactly one row whose design
vector carries a 1 in the state column governed by `sysMaskIdx`, with
`prange` nonzero. -/
theorem rescodeBody_cases (env : Env) (nav : Nav) (opt : PrcOpt) (iter : ℕ)
    (rr pos : List ℚ) (dtr : ℚ) (x : List ℚ) (d : SatIn) (i : ℕ) (sys : Sys)
    (st : RcState) :
    ((rescodeBody env nav opt iter rr pos dtr x d i sys st).rows = st.rows ∧
     (rescodeBody env nav opt iter rr pos dtr x d i sys st).ns = st.ns ∧
     (rescodeBody env nav opt iter rr pos dtr x d i sys st).mask = st.mask ∧
     (rescodeBody env nav opt iter rr pos dtr x d i sys st).vsat = st.vsat ∧
     (rescodeBody env nav opt iter rr pos dtr x d i sys st).resp = st.resp) ∨
    (∃ ro : Row,
      (rescodeBody env nav opt iter rr pos dtr x d i sys st).rows =
        st.rows ++ [ro] ∧
      (rescodeBody env nav opt iter rr pos dtr x d i sys st).ns = st.ns + 1 ∧
      (rescodeBody env nav opt iter rr pos dtr x d i sys st).mask =
        st.mask.set (sysMaskIdx sys) true ∧
      ro.H.getD (sysMaskIdx sys + 3) 0 = 1 ∧
      ¬ ((prange env nav opt d.obs).1 = 0)) := by
  have hg := rescodeGate_frame env nav opt iter pos d i
    (env.geodist d.rs rr).2 st
  simp only [rescodeBody, rescodeFinish]
  split
  · exact Or.inl ⟨rfl, rfl, rfl, rfl, rfl⟩
  · split
    · exact Or.inl ⟨rfl, rfl, rfl, rfl, rfl⟩
    · split
      · exact Or.inl hg
      · split
        · exact Or.inl hg
        · rename_i hgate hP
          refine Or.inr ⟨rescodeRow env nav opt dtr x d i sys
            (env.geodist d.rs rr).1 (env.geodist d.rs rr).2
            (rescodeGate env nav opt iter pos d i (env.geodist d.rs rr).2 st).1,
            ?_, ?_, ?_, rescodeRow_H_maskIdx env nav opt dtr x d i sys
              (env.geodist d.rs rr).1 (env.geodist d.rs rr).2
              (rescodeGate env nav opt iter pos d i (env.geodist d.rs rr).2 st).1,
            hP⟩
          · simp only [hg.1]
          · simp only [hg.2.1]
          · simp only [hg.2.2.1]

theorem rescodeBody_maskInvariant (env : Env) (nav : Nav) (opt : PrcOpt)
    (iter : ℕ) (rr pos : List ℚ) (dtr : ℚ) (x : List ℚ) (d : SatIn) (i : ℕ)
    (sys : Sys) (st : RcState) (h : maskInvariant st) :
    maskInvariant (rescodeBody env nav opt iter rr pos dtr x d i sys st) := by
  rcases rescodeBody_cases env nav opt iter rr pos dtr x d i sys st with
    hc | ⟨ro, hrows, hns, hmask, hH, hP⟩
  · intro k hk hmk
    rw [hc.2.2.1] at hmk
    rw [hc.1]
    exact h k hk hmk
  · intro k hk hmk
    rw [hmask] at hmk
    by_cases hki : sysMaskIdx sys = k
    · refine ⟨ro, ?_, by rw [← hki]; exact hH⟩
      rw [hrows]
      simp
    · rw [getD_set_ne _ _ _ _ _ hki] at hmk
      obtain ⟨ro2, hmem, h2⟩ := h k hk hmk
      refine ⟨ro2, ?_, h2⟩
      rw [hrows]
      exact List.mem_append_left _ hmem

theorem rcSlotInit_maskInvariant (i : ℕ) (st : RcState)
    (h : maskInvariant st) : maskInvariant (rcSlotInit i st) := by
  intro k hk hmk
  exact h k hk hmk

theorem rescodeLoop_maskInvariant (env : Env) (nav : Nav) (opt : PrcOpt)
    (iter : ℕ) (rr pos : List ℚ) (dtr : ℚ) (x : List ℚ) :
    ∀ (N : ℕ) (l : List SatIn), l.length ≤ N → ∀ (i : ℕ) (st : RcState),
      maskInvariant st →
      maskInvariant (rescodeLoop env nav opt iter rr pos dtr x l i st) := by
  intro N
  induction N with
  | zero =>
    intro l hl i st h
    have : l = [] := List.length_eq_zero.mp (Nat.le_zero.mp hl)
    subst this
    exact h
  | succ n ih =>
    intro l hl i st h
    match l with
    | [] => exact h
    | [d] =>
      rw [rescodeLoop]
      split
      · exact h
      · cases hsys : env.satsys d.obs.sat <;>
          simp only [hsys] <;>
          first
          | exact rcSlotInit_maskInvariant i st h
          | exact rescodeBody_maskInvariant env nav opt iter rr pos dtr x d i _
              (rcSlotInit i st) (rcSlotInit_maskInvariant i st h)
    | d :: d2 :: rest =>
      rw [rescodeLoop]
      split
      · exact h
      · have h1 := rcSlotInit_maskInvariant i st h
        cases hsys : env.satsys d.obs.sat <;> simp only [hsys]
        case SYS_ZERO =>
          exact ih (d2 :: rest) (by simpa using Nat.le_of_succ_le_succ hl) (i + 1) _ h1
        all_goals
          split
          · exact ih rest (by simp at hl; omega) (i + 2) _ h1
          · exact ih (d2 :: rest) (by simpa using Nat.le_of_succ_le_succ hl) (i + 1) _
              (rescodeBody_maskInvariant env nav opt iter rr pos dtr x d i _
                (rcSlotInit i st) h1)

theorem pseudoRows_mem (mask : List Bool) (k : ℕ) (hk : k < 5)
    (hmk : mask.getD k false = false) :
    Row.mk 0 ((List.replicate 8 0).set (k + 3) 1) (1 / 100) ∈ pseudoRows mask := by
  refine List.mem_filterMap.mpr ⟨k, ?_, ?_⟩
  · rw [show NX - 3 = 5 from rfl]
    exact List.mem_range.mpr hk
  · rw [hmk]
    rfl

theorem estvelLoop_some_converged (env : Env) (nav : Nav) (satdata : List SatIn)
    (rr : List ℚ) (azel : List (ℚ × ℚ)) (vsat : List Bool) (err : ℚ) :
    ∀ (fuel : ℕ) (x : List ℚ) (xq : List ℚ × List ℚ),
      estvelLoop env nav satdata rr azel vsat err fuel x = some xq →
      ∃ xa, ConvergedStep env nav satdata rr azel vsat err xa xq.1 xq.2 := by
  intro fuel
  induction fuel with
  | zero => intro x xq h; simp [estvelLoop] at h
  | succ f ih =>
    intro x xq h
    rw [estvelLoop] at h
    by_cases h4 : (resdop env nav satdata rr x azel vsat err).length < 4
    · simp only [h4, if_true, if_pos] at h
      exact absurd h (by simp)
    · simp only [h4, if_false, ite_false] at h
      cases hls : env.lsq ((resdop env nav satdata rr x azel vsat err).map DopRow.H)
          ((resdop env nav satdata rr x azel vsat err).map DopRow.v) 4
          (resdop env nav satdata rr x azel vsat err).length with
      | error e =>
        rw [hls] at h
        exact absurd h (by simp)
      | ok dq =>
        rw [hls] at h
        by_cases hcv : env.sqrtQ (dotq dq.1 dq.1) < 1 / 1000000
        · simp only [hcv, if_true, if_pos, Option.some.injEq] at h
          refine ⟨x, not_lt.mp h4, dq.1, ?_, ?_, hcv⟩
          · rw [hls, ← h]
          · rw [← h]
        · simp only [hcv, if_false, ite_false] at h
          exact ih _ _ h

/-! Claim theorems. -/

/-- C1 (counterexample): on six equal-quality candidates, every RAIM
exclusion candidate qualifies with residual RMS exactly 1.  After the
first candidate (satellite 1) is saved, the later candidates have RMS
*equal* to the current best; the claim says they cannot displace the
incumbent, so satellite 1 should be the committed exclusion.  The code
compares `rms_e > rms` as the *skip* condition, so an equal-RMS candidate
is saved: the run commits satellite 6, the last one, refuting the claim. -/
theorem raim_fde_equal_rms_displaces_cex :
    (raimStep env1 nav1 opt1 satdata1 6 0
       (raimInit env1 6 zeroSol azel1 vsat1 resp1 Msg.empty)).stat = true ∧
    (raimStep env1 nav1 opt1 satdata1 6 0
       (raimInit env1 6 zeroSol azel1 vsat1 resp1 Msg.empty)).sat = 1 ∧
    (raimStep env1 nav1 opt1 satdata1 6 0
       (raimInit env1 6 zeroSol azel1 vsat1 resp1 Msg.empty)).rms = 1 ∧
    (raim_fde env1 nav1 opt1 satdata1 6 zeroSol azel1 vsat1 resp1 Msg.empty).stat
      = true ∧
    (raim_fde env1 nav1 opt1 satdata1 6 zeroSol azel1 vsat1 resp1 Msg.empty).sat
      = 6 ∧
    (raim_fde env1 nav1 opt1 satdata1 6 zeroSol azel1 vsat1 resp1 Msg.empty).rms
      = 1 ∧
    (raim_fde env1 nav1 opt1 satdata1 6 zeroSol azel1 vsat1 resp1
      Msg.empty).vsat.getD 0 false = true ∧
    (raim_fde env1 nav1 opt1 satdata1 6 zeroSol azel1 vsat1 resp1
      Msg.empty).vsat.getD 5 false = false := by
  rw [raimStep1, raim_chain]
  repeat' apply And.intro
  all_goals rfl

/-- C1 (amended): RAIM candidates are scanned in observation order with
*non-strict* acceptance: a candidate whose residual RMS is less than *or
equal to* the current best (initially 100.0) replaces the incumbent
winner, because the source skips a candidate only when `rms_e > rms`
holds strictly.  In particular, among candidates with equal qualifying
RMS the one scanned *last* is the exclusion committed to the solution. -/
theorem raimStep_equal_rms_replaces (env : Env) (nav : Nav) (opt : PrcOpt)
    (satdata : List SatIn) (n i : ℕ) (st : RaimState) (r : SolveRes)
    (hest : estpos env nav opt (satdata.eraseIdx i) st.sol_e st.vsat_e
      st.azel_e st.resp_e st.msg_e = r)
    (hstat : r.stat = true)
    (hnv : 5 ≤ raimNvsat r.vsat (n - 1))
    (hrms : env.sqrtQ (raimSumsq r.resp r.vsat (n - 1) /
      (raimNvsat r.vsat (n - 1) : ℚ)) ≤ st.rms) :
    (raimStep env nav opt satdata n i st).stat = true ∧
    (raimStep env nav opt satdata n i st).sat =
      (satdata.getD i default).obs.sat ∧
    (raimStep env nav opt satdata n i st).rms =
      env.sqrtQ (raimSumsq r.resp r.vsat (n - 1) /
        (raimNvsat r.vsat (n - 1) : ℚ)) ∧
    (raimStep env nav opt satdata n i st).sol = r.sol ∧
    (raimStep env nav opt satdata n i st).msg = r.msg := by
  have h1 : ¬ (raimNvsat r.vsat (n - 1) < 5) := not_lt.mpr hnv
  have h2 : ¬ (env.sqrtQ (raimSumsq r.resp r.vsat (n - 1) /
      (raimNvsat r.vsat (n - 1) : ℚ)) > st.rms) := not_lt.mpr hrms
  simp only [raimStep, hest, hstat, h1, h2, raimSave, if_false, ite_false]
  repeat' apply And.intro
  all_goals rfl

/-- C1 (witness): the amended theorem applied to the first candidate of
the tie run: it qualifies with RMS 1 under the initial bound 100 and is
committed. -/
theorem raimStep_equal_rms_replaces_witness :
    (5 ≤ raimNvsat [true, true, true, true, true, false] (6 - 1)) ∧
    (env1.sqrtQ (raimSumsq [1, 1, 1, 1, 1, 0]
       [true, true, true, true, true, false] (6 - 1) /
       (raimNvsat [true, true, true, true, true, false] (6 - 1) : ℚ)) ≤
      (raimInit env1 6 zeroSol azel1 vsat1 resp1 Msg.empty).rms) ∧
    (raimStep env1 nav1 opt1 satdata1 6 0
       (raimInit env1 6 zeroSol azel1 vsat1 resp1 Msg.empty)).sat =
      (satdata1.getD 0 default).obs.sat := by
  have hest : estpos env1 nav1 opt1 (satdata1.eraseIdx 0)
      (raimInit env1 6 zeroSol azel1 vsat1 resp1 Msg.empty).sol_e
      (raimInit env1 6 zeroSol azel1 vsat1 resp1 Msg.empty).vsat_e
      (raimInit env1 6 zeroSol azel1 vsat1 resp1 Msg.empty).azel_e
      (raimInit env1 6 zeroSol azel1 vsat1 resp1 Msg.empty).resp_e
      (raimInit env1 6 zeroSol azel1 vsat1 resp1 Msg.empty).msg_e =
      ⟨true, solC, [(0,0), (0,0), (0,0), (0,0), (0,0), (0,0)],
       [true, true, true, true, true, false], [1, 1, 1, 1, 1, 0], Msg.empty⟩ :=
    estpos_eval1 2 3 4 5 6 (by decide) (by decide) (by decide) (by decide)
      zeroSol rfl rfl rfl false false false false false false
      (0,0) (0,0) (0,0) (0,0) (0,0) (0,0) 0 0 0 0 0 0
  have hnv : 5 ≤ raimNvsat [true, true, true, true, true, false] (6 - 1) := by
    decide
  have hrms : env1.sqrtQ (raimSumsq [1, 1, 1, 1, 1, 0]
      [true, true, true, true, true, false] (6 - 1) /
      (raimNvsat [true, true, true, true, true, false] (6 - 1) : ℚ)) ≤
      (raimInit env1 6 zeroSol azel1 vsat1 resp1 Msg.empty).rms := by
    norm_num [raimSumsq, raimNvsat, raimInit, qsqrt, SQR, env1, List.range_succ]
  exact ⟨hnv, hrms,
    (raimStep_equal_rms_replaces env1 nav1 opt1 satdata1 6 0
      (raimInit env1 6 zeroSol azel1 vsat1 resp1 Msg.empty)
      ⟨true, solC, [(0,0), (0,0), (0,0), (0,0), (0,0), (0,0)],
       [true, true, true, true, true, false], [1, 1, 1, 1, 1, 0], Msg.empty⟩
      hest rfl hnv hrms).2.1⟩

/-- C2: for every `pntpos` call with at least one observation, the final
solution is the result of `estvel` applied to the solution, azimuth and
visibility mask left by the position stage (`estpos` / `raim_fde`); this
holds whether the position stage succeeded or failed, because the source
runs `estvel` with identical arguments in both branches of `if (stat)`,
and `estvel` linearises about the possibly unconverged `sol->rr`. -/
theorem pntpos_estvel_unconditional (env : Env) (nav : Nav) (opt : PrcOpt)
    (obs : List ObsD) (sol : Sol) (msg0 : Msg) (h : obs ≠ []) :
    (pntpos env nav opt obs sol msg0).sol =
      estvel env nav (adjustOpt opt)
        (mkSatData env nav (adjustOpt opt).sateph (obs.headD default).time obs)
        (pntposMid env nav opt obs { sol with stat := SolStat.SOLQ_NONE }).sol
        (pntposMid env nav opt obs { sol with stat := SolStat.SOLQ_NONE }).azel
        (pntposMid env nav opt obs { sol with stat := SolStat.SOLQ_NONE }).vsat := by
  have hlen : ¬ (obs.length = 0) := by simpa using h
  simp [pntpos, hlen, ite_self]

/-- C2 (witness): a one-observation call in which the position stage
fails (`lack of valid sats`), and `estvel` still runs on the failed
solution. -/
theorem pntpos_estvel_unconditional_witness :
    ([mkObs 1] ≠ ([] : List ObsD)) ∧
    (pntpos env1 nav1 opt1 [mkObs 1] zeroSol Msg.empty).sol =
      estvel env1 nav1 (adjustOpt opt1)
        (mkSatData env1 nav1 (adjustOpt opt1).sateph
          (([mkObs 1]).headD default).time [mkObs 1])
        (pntposMid env1 nav1 opt1 [mkObs 1]
          { zeroSol with stat := SolStat.SOLQ_NONE }).sol
        (pntposMid env1 nav1 opt1 [mkObs 1]
          { zeroSol with stat := SolStat.SOLQ_NONE }).azel
        (pntposMid env1 nav1 opt1 [mkObs 1]
          { zeroSol with stat := SolStat.SOLQ_NONE }).vsat :=
  ⟨by decide,
   pntpos_estvel_unconditional env1 nav1 opt1 [mkObs 1] zeroSol Msg.empty
     (by decide)⟩

/-- C3: `estvel` writes `sol->rr[3..5]` and `sol->qv[0..5]` exactly when
its Gauss-Newton loop converges: if the loop aborts (fewer than 4 Doppler
residuals, an `lsq` failure, or `MAXITR` iterations exhausted, i.e. the
loop returns `none`) the solution record is returned unchanged; if the
loop returns a state, some iteration had at least 4 residuals, a
successful `lsq` solve and `norm(dx,4) < 1E-6`, and exactly the velocity
and `qv` fields are rewritten.  The statement quantifies over every
solution record, hence is independent of position success. -/
theorem estvel_writes_only_on_convergence (env : Env) (nav : Nav)
    (opt : PrcOpt) (satdata : List SatIn) (sol : Sol)
    (azel : List (ℚ × ℚ)) (vsat : List Bool) :
    (estvelLoop env nav satdata sol.rr azel vsat (opt.err.getD 4 0) MAXITR
        [0, 0, 0, 0] = none →
      estvel env nav opt satdata sol azel vsat = sol) ∧
    (∀ xq, estvelLoop env nav satdata sol.rr azel vsat (opt.err.getD 4 0)
        MAXITR [0, 0, 0, 0] = some xq →
      (∃ xa, ConvergedStep env nav satdata sol.rr azel vsat
        (opt.err.getD 4 0) xa xq.1 xq.2) ∧
      estvel env nav opt satdata sol azel vsat = estvelWrite sol xq.1 xq.2) := by
  constructor
  · intro h; simp only [estvel, h]
  · intro xq h
    exact ⟨estvelLoop_some_converged env nav satdata sol.rr azel vsat
      (opt.err.getD 4 0) MAXITR [0, 0, 0, 0] xq h, by simp only [estvel, h]⟩

/-- C3 (witness): with no observations the loop aborts (0 < 4 residual
rows) and the solution is untouched. -/
theorem estvel_writes_only_on_convergence_witness :
    estvelLoop env1 nav1 [] zeroSol.rr azel1 vsat1 ((opt1.err).getD 4 0) MAXITR
      [0, 0, 0, 0] = none ∧
    estvel env1 nav1 opt1 [] zeroSol azel1 vsat1 = zeroSol := by
  have hnone : estvelLoop env1 nav1 [] zeroSol.rr azel1 vsat1
      ((opt1.err).getD 4 0) MAXITR [0, 0, 0, 0] = none := by
    rw [show MAXITR = 9 + 1 from rfl, estvelLoop]
    norm_num [resdop, resdopLoop]
  exact ⟨hnone,
    (estvel_writes_only_on_convergence env1 nav1 opt1 [] zeroSol azel1
      vsat1).1 hnone⟩

/-- C4 (counterexample): a call reaching `estpos` with `nv = 9 ≥ NX = 8`
rows in which the state column 0 of the returned design matrix is
entirely zero (all five satellites share the line of sight `(0,0,1)`), so
`H` does *not* always have a nonzero entry in every one of the 8 state
columns, and in particular is not of full column rank. -/
theorem rescode_column_zero_cex :
    8 ≤ (rescode env1 nav1 opt1 0 [satD 1, satD 2, satD 3, satD 4, satD 5] x0
      [false, false, false, false, false, false]
      [(0,0), (0,0), (0,0), (0,0), (0,0), (0,0)] [0, 0, 0, 0, 0, 0]).rows.length ∧
    ∀ ro ∈ (rescode env1 nav1 opt1 0 [satD 1, satD 2, satD 3, satD 4, satD 5] x0
      [false, false, false, false, false, false]
      [(0,0), (0,0), (0,0), (0,0), (0,0), (0,0)] [0, 0, 0, 0, 0, 0]).rows,
      ro.H.getD 0 0 = 0 := by
  rw [rescode_eval1 1 2 3 4 5 (by decide) (by decide) (by decide) (by decide)
    false false false false false false (0,0) (0,0) (0,0) (0,0) (0,0) (0,0)
    0 0 0 0 0 0]
  refine ⟨by norm_num, ?_⟩
  intro ro h
  simp only [List.mem_cons, List.not_mem_nil, or_false] at h
  rcases h with rfl | rfl | rfl | rfl | rfl | rfl | rfl | rfl | rfl <;> rfl

/-- C4 (amended): after the observation loop, `rescode` appends one
pseudo-observation row (residual 0, a single 1 in column `k+3`, variance
0.01) for every mask slot `k` that received no contribution, so the
returned design matrix always has a nonzero entry in every one of the
clock and inter-system columns 3..7; the position columns 0..2 carry the
line-of-sight entries and are nonzero only as geometry provides (see the
counterexample). -/
theorem rescode_pseudoobs_and_columns (env : Env) (nav : Nav) (opt : PrcOpt)
    (iter : ℕ) (satdata : List SatIn) (x : List ℚ) (vsat0 : List Bool)
    (azel0 : List (ℚ × ℚ)) (resp0 : List ℚ) :
    (∃ realRows,
      (rescode env nav opt iter satdata x vsat0 azel0 resp0).rows =
        realRows ++
          pseudoRows ((rescode env nav opt iter satdata x vsat0 azel0 resp0).mask)) ∧
    (∀ k, k < 5 →
      (rescode env nav opt iter satdata x vsat0 azel0 resp0).mask.getD k false
        = false →
      Row.mk 0 ((List.replicate 8 0).set (k + 3) 1) (1 / 100) ∈
        (rescode env nav opt iter satdata x vsat0 azel0 resp0).rows) ∧
    (∀ j, 3 ≤ j → j < 8 →
      ∃ ro ∈ (rescode env nav opt iter satdata x vsat0 azel0 resp0).rows,
        ¬ (ro.H.getD j 0 = 0)) := by
  have hinit : maskInvariant
      ⟨[], 0, List.replicate (NX - 3) false, env.dion0, env.dtrp0,
       env.vion0, env.vtrp0, vsat0, azel0, resp0⟩ := by
    intro k hk hmk
    rw [show NX - 3 = 5 from rfl, getD_replicate_self] at hmk
    exact absurd hmk (by simp)
  have hinv := rescodeLoop_maskInvariant env nav opt iter (x.take 3)
    (env.ecef2pos (x.take 3)) (x.getD 3 0) x satdata.length satdata le_rfl 0 _
    hinit
  refine ⟨⟨_, rfl⟩, ?_, ?_⟩
  · intro k hk hmk
    exact List.mem_append_right _
      (pseudoRows_mem (rescode env nav opt iter satdata x vsat0 azel0 resp0).mask
        k hk hmk)
  · intro j h3 h8
    have hk5 : j - 3 < 5 := by omega
    have hj : j - 3 + 3 = j := by omega
    by_cases hmk : (rescode env nav opt iter satdata x vsat0 azel0
        resp0).mask.getD (j - 3) false = true
    · obtain ⟨ro, hmem, h1⟩ := hinv (j - 3) hk5 hmk
      refine ⟨ro, List.mem_append_left _ hmem, ?_⟩
      rw [hj] at h1
      rw [h1]
      norm_num
    · have hmf : (rescode env nav opt iter satdata x vsat0 azel0
          resp0).mask.getD (j - 3) false = false := by
        simpa using hmk
      refine ⟨Row.mk 0 ((List.replicate 8 0).set (j - 3 + 3) 1) (1 / 100),
        ?_, ?_⟩
      · exact List.mem_append_right _
          (pseudoRows_mem
            (rescode env nav opt iter satdata x vsat0 azel0 resp0).mask
            (j - 3) hk5 hmf)
      · show ¬ (((List.replicate 8 (0:ℚ)).set (j - 3 + 3) 1).getD j 0 = 0)
        rw [hj, getD_set_self _ _ _ _ (by simp; omega)]
        norm_num

/-- C4 (witness): with no observations every mask slot is unseen, the
pseudo-observation for column 3 is present, and every column 3..7 has a
nonzero entry. -/
theorem rescode_pseudoobs_and_columns_witness :
    ((rescode env1 nav1 opt1 0 [] x0 [] [] []).mask.getD 0 false = false) ∧
    Row.mk 0 ((List.replicate 8 0).set (0 + 3) 1) (1 / 100) ∈
      (rescode env1 nav1 opt1 0 [] x0 [] [] []).rows ∧
    (∃ ro ∈ (rescode env1 nav1 opt1 0 [] x0 [] [] []).rows,
      ¬ (ro.H.getD 3 0 = 0)) :=
  ⟨by decide,
   (rescode_pseudoobs_and_columns env1 nav1 opt1 0 [] x0 [] [] []).2.1 0
     (by norm_num) (by decide),
   (rescode_pseudoobs_and_columns env1 nav1 opt1 0 [] x0 [] [] []).2.2 3
     (by norm_num) (by norm_num)⟩

/-- C5: in any state of the `estpos` Gauss-Newton loop with iterations
remaining, if `rescode` returns fewer than `NX = 8` rows the loop stops
with status 0, the message `lack of valid sats ns=nv` (the source prints
`nv` under the label `ns=`), the solution record untouched, and only the
in/out observation buffers updated by `rescode`. -/
theorem estposIter_lack_of_valid_sats (env : Env) (nav : Nav) (opt : PrcOpt)
    (satdata : List SatIn) (sol : Sol) (fuel iter : ℕ) (x : List ℚ)
    (vsat : List Bool) (azel : List (ℚ × ℚ)) (resp : List ℚ) (msg : Msg)
    (hfuel : fuel ≠ 0)
    (hnv : (rescode env nav opt iter satdata x vsat azel resp).rows.length < NX) :
    estposIter env nav opt satdata sol fuel iter x vsat azel resp msg =
      ⟨false, sol,
       (rescode env nav opt iter satdata x vsat azel resp).azel,
       (rescode env nav opt iter satdata x vsat azel resp).vsat,
       (rescode env nav opt iter satdata x vsat azel resp).resp,
       Msg.lackOfValidSats
         (rescode env nav opt iter satdata x vsat azel resp).rows.length⟩ := by
  obtain ⟨f, rfl⟩ := Nat.exists_eq_succ_of_ne_zero hfuel
  simp only [estposIter, hnv, if_true, if_pos]

/-- C5 (witness): with no observations `rescode` returns only the 5
pseudo-observation rows, `5 < 8`, and `estpos` fails with the
`lack of valid sats` message without committing to the solution. -/
theorem estposIter_lack_of_valid_sats_witness :
    ((10 : ℕ) ≠ 0) ∧
    (rescode env1 nav1 opt1 0 [] x0 [] [] []).rows.length < NX ∧
    estposIter env1 nav1 opt1 [] zeroSol 10 0 x0 [] [] [] Msg.empty =
      ⟨false, zeroSol,
       (rescode env1 nav1 opt1 0 [] x0 [] [] []).azel,
       (rescode env1 nav1 opt1 0 [] x0 [] [] []).vsat,
       (rescode env1 nav1 opt1 0 [] x0 [] [] []).resp,
       Msg.lackOfValidSats (rescode env1 nav1 opt1 0 [] x0 [] [] []).rows.length⟩ :=
  ⟨by decide, by decide,
   estposIter_lack_of_valid_sats env1 nav1 opt1 [] zeroSol 10 0 x0 [] [] []
     Msg.empty (by decide) (by decide)⟩

/-- C6: a `pntpos` call with no observations returns status 0 with the
message `no observation data`, the solution record unchanged except for
`sol->stat = SOLQ_NONE` (written before the early exit), hence no
position solution. -/
theorem pntpos_no_observation_data (env : Env) (nav : Nav) (opt : PrcOpt)
    (sol : Sol) (msg0 : Msg) :
    pntpos env nav opt [] sol msg0 =
      ⟨false, { sol with stat := SolStat.SOLQ_NONE }, [], [], [],
       Msg.noObsData⟩ := by
  simp [pntpos]

/-- C7: whenever the primary pseudorange is 0, or the iono-free
combination is selected and the secondary pseudorange is 0, `prange`
returns 0, and the `rescode` loop body contributes no residual row for
the observation: the row buffer and the retained count are unchanged and
the satellite's `vsat`/`resp` slots stay at their loop-top values 0. -/
theorem prange_zero_drops_satellite (env : Env) (nav : Nav) (opt : PrcOpt)
    (iter : ℕ) (rr pos : List ℚ) (dtr : ℚ) (x : List ℚ) (d : SatIn) (i : ℕ)
    (sys : Sys) (st : RcState)
    (h : d.obs.P1 = 0 ∨ (opt.ionoopt = IonoOpt.IFLC ∧ d.obs.P2 = 0)) :
    (prange env nav opt d.obs).1 = 0 ∧
    (rescodeBody env nav opt iter rr pos dtr x d i sys (rcSlotInit i st)).rows =
      st.rows ∧
    (rescodeBody env nav opt iter rr pos dtr x d i sys (rcSlotInit i st)).ns =
      st.ns ∧
    (rescodeBody env nav opt iter rr pos dtr x d i sys
      (rcSlotInit i st)).vsat.getD i false = false ∧
    (rescodeBody env nav opt iter rr pos dtr x d i sys
      (rcSlotInit i st)).resp.getD i 0 = 0 := by
  have hp : (prange env nav opt d.obs).1 = 0 := by
    unfold prange
    rw [if_pos h]
  rcases rescodeBody_cases env nav opt iter rr pos dtr x d i sys
    (rcSlotInit i st) with hc | ⟨ro, _, _, _, _, hne⟩
  · refine ⟨hp, ?_, ?_, ?_, ?_⟩
    · rw [hc.1]
      rfl
    · rw [hc.2.1]
      rfl
    · rw [hc.2.2.2.1]
      exact getD_set_same st.vsat i false
    · rw [hc.2.2.2.2]
      exact getD_set_same st.resp i 0
  · exact absurd hp hne

/-- C7 (witness): an observation with `P[0] = 0` is dropped. -/
theorem prange_zero_drops_satellite_witness :
    (((⟨⟨7, 0, 0, 0, 0, 0, 0, 0, 0⟩, [], 0, 0, 0, 0⟩ : SatIn)).obs.P1 = 0 ∨
      (opt1.ionoopt = IonoOpt.IFLC ∧
       ((⟨⟨7, 0, 0, 0, 0, 0, 0, 0, 0⟩, [], 0, 0, 0, 0⟩ : SatIn)).obs.P2 = 0)) ∧
    (prange env1 nav1 opt1
      ((⟨⟨7, 0, 0, 0, 0, 0, 0, 0, 0⟩, [], 0, 0, 0, 0⟩ : SatIn)).obs).1 = 0 ∧
    (rescodeBody env1 nav1 opt1 0 [] [] 0 x0
      (⟨⟨7, 0, 0, 0, 0, 0, 0, 0, 0⟩, [], 0, 0, 0, 0⟩ : SatIn) 0 Sys.SYS_GPS
      (rcSlotInit 0 ⟨[], 0, [], 0, 0, 0, 0, [], [], []⟩)).rows = [] :=
  ⟨Or.inl rfl,
   (prange_zero_drops_satellite env1 nav1 opt1 0 [] [] 0 x0
     (⟨⟨7, 0, 0, 0, 0, 0, 0, 0, 0⟩, [], 0, 0, 0, 0⟩ : SatIn) 0 Sys.SYS_GPS
     ⟨[], 0, [], 0, 0, 0, 0, [], [], []⟩ (Or.inl rfl)).1,
   (prange_zero_drops_satellite env1 nav1 opt1 0 [] [] 0 x0
     (⟨⟨7, 0, 0, 0, 0, 0, 0, 0, 0⟩, [], 0, 0, 0, 0⟩ : SatIn) 0 Sys.SYS_GPS
     ⟨[], 0, [], 0, 0, 0, 0, [], [], []⟩ (Or.inl rfl)).2.1⟩

/-- C8: `valsol` fails exactly when the chi-square gate trips (`nv > nx`
and the weighted residual sum of squares exceeds the `chisqr` entry at
`nv - nx` degrees of freedom, emitting `chi-square error`) or the GDOP
gate trips (`gdop ≤ 0` or `gdop > opt.maxgdop` over the satellites with
`vsat` set, emitting `gdop error`); when both gates pass it returns 1
with the message buffer untouched. -/
theorem valsol_gates (env : Env) (opt : PrcOpt) (azel : List (ℚ × ℚ))
    (vsat : List Bool) (n : ℕ) (v : List ℚ) (nv nx : ℕ) (msg : Msg) :
    ((valsol env opt azel vsat n v nv nx msg).1 = false ↔
      ((nv > nx ∧ dotq (v.take nv) (v.take nv) > env.chisqr (nv - nx - 1)) ∨
       (env.dops ((List.range n).filterMap fun i =>
          if vsat.getD i false then some (azel.getD i (0, 0)) else none).length
          ((List.range n).filterMap fun i =>
            if vsat.getD i false then some (azel.getD i (0, 0)) else none)
          opt.elmin ≤ 0 ∨
        env.dops ((List.range n).filterMap fun i =>
          if vsat.getD i false then some (azel.getD i (0, 0)) else none).length
          ((List.range n).filterMap fun i =>
            if vsat.getD i false then some (azel.getD i (0, 0)) else none)
          opt.elmin > opt.maxgdop))) ∧
    ((nv > nx ∧ dotq (v.take nv) (v.take nv) > env.chisqr (nv - nx - 1)) →
      (valsol env opt azel vsat n v nv nx msg).2 =
        Msg.chiSquareError nv (dotq (v.take nv) (v.take nv))
          (env.chisqr (nv - nx - 1))) ∧
    (¬ (nv > nx ∧ dotq (v.take nv) (v.take nv) > env.chisqr (nv - nx - 1)) →
      (env.dops ((List.range n).filterMap fun i =>
          if vsat.getD i false then some (azel.getD i (0, 0)) else none).length
          ((List.range n).filterMap fun i =>
            if vsat.getD i false then some (azel.getD i (0, 0)) else none)
          opt.elmin ≤ 0 ∨
       env.dops ((List.range n).filterMap fun i =>
          if vsat.getD i false then some (azel.getD i (0, 0)) else none).length
          ((List.range n).filterMap fun i =>
            if vsat.getD i false then some (azel.getD i (0, 0)) else none)
          opt.elmin > opt.maxgdop) →
      (valsol env opt azel vsat n v nv nx msg).2 =
        Msg.gdopError nv
          (env.dops ((List.range n).filterMap fun i =>
            if vsat.getD i false then some (azel.getD i (0, 0)) else none).length
            ((List.range n).filterMap fun i =>
              if vsat.getD i false then some (azel.getD i (0, 0)) else none)
            opt.elmin)) ∧
    (¬ (nv > nx ∧ dotq (v.take nv) (v.take nv) > env.chisqr (nv - nx - 1)) →
      ¬ (env.dops ((List.range n).filterMap fun i =>
          if vsat.getD i false then some (azel.getD i (0, 0)) else none).length
          ((List.range n).filterMap fun i =>
            if vsat.getD i false then some (azel.getD i (0, 0)) else none)
          opt.elmin ≤ 0 ∨
         env.dops ((List.range n).filterMap fun i =>
          if vsat.getD i false then some (azel.getD i (0, 0)) else none).length
          ((List.range n).filterMap fun i =>
            if vsat.getD i false then some (azel.getD i (0, 0)) else none)
          opt.elmin > opt.maxgdop) →
      valsol env opt azel vsat n v nv nx msg = (true, msg)) := by
  by_cases hchi : nv > nx ∧ dotq (v.take nv) (v.take nv) > env.chisqr (nv - nx - 1)
  · have h1 : valsol env opt azel vsat n v nv nx msg =
        (false, Msg.chiSquareError nv (dotq (v.take nv) (v.take nv))
          (env.chisqr (nv - nx - 1))) := by
      simp only [valsol]
      rw [if_pos hchi]
    rw [h1]
    exact ⟨⟨fun _ => Or.inl hchi, fun _ => rfl⟩, fun _ => rfl,
      fun hn => absurd hchi hn, fun hn => absurd hchi hn⟩
  · by_cases hg : env.dops ((List.range n).filterMap fun i =>
        if vsat.getD i false then some (azel.getD i (0, 0)) else none).length
        ((List.range n).filterMap fun i =>
          if vsat.getD i false then some (azel.getD i (0, 0)) else none)
        opt.elmin ≤ 0 ∨
      env.dops ((List.range n).filterMap fun i =>
        if vsat.getD i false then some (azel.getD i (0, 0)) else none).length
        ((List.range n).filterMap fun i =>
          if vsat.getD i false then some (azel.getD i (0, 0)) else none)
        opt.elmin > opt.maxgdop
    · have h1 : valsol env opt azel vsat n v nv nx msg =
          (false, Msg.gdopError nv
            (env.dops ((List.range n).filterMap fun i =>
              if vsat.getD i false then some (azel.getD i (0, 0)) else none).length
              ((List.range n).filterMap fun i =>
                if vsat.getD i false then some (azel.getD i (0, 0)) else none)
              opt.elmin)) := by
        simp only [valsol]
        rw [if_neg hchi, if_pos hg]
      rw [h1]
      exact ⟨⟨fun _ => Or.inr hg, fun _ => rfl⟩, fun hc => absurd hc hchi,
        fun _ _ => rfl, fun _ hn => absurd hg hn⟩
    · have h1 : valsol env opt azel vsat n v nv nx msg = (true, msg) := by
        simp only [valsol]
        rw [if_neg hchi, if_neg hg]
      rw [h1]
      refine ⟨⟨fun hf => absurd hf (by simp), fun h =>
        h.elim (fun hc => absurd hc hchi) (fun hgg => absurd hgg hg)⟩,
        fun hc => absurd hc hchi, fun _ hgg => absurd hgg hg, fun _ _ => rfl⟩

/-- C8 (witness): a call in which both gates pass: `nv = nx = 0` skips
the chi-square comparison and `env1`'s GDOP is 1 with `maxgdop = 30`. -/
theorem valsol_gates_witness :
    (¬ ((0 : ℕ) > 0 ∧ dotq (([] : List ℚ).take 0) (([] : List ℚ).take 0) >
      env1.chisqr (0 - 0 - 1))) ∧
    (¬ (env1.dops ((List.range 0).filterMap fun i =>
        if ([] : List Bool).getD i false then
          some (([] : List (ℚ × ℚ)).getD i (0, 0)) else none).length
        ((List.range 0).filterMap fun i =>
          if ([] : List Bool).getD i false then
            some (([] : List (ℚ × ℚ)).getD i (0, 0)) else none)
        opt1.elmin ≤ 0 ∨
      env1.dops ((List.range 0).filterMap fun i =>
        if ([] : List Bool).getD i false then
          some (([] : List (ℚ × ℚ)).getD i (0, 0)) else none).length
        ((List.range 0).filterMap fun i =>
          if ([] : List Bool).getD i false then
            some (([] : List (ℚ × ℚ)).getD i (0, 0)) else none)
        opt1.elmin > opt1.maxgdop)) ∧
    valsol env1 opt1 [] [] 0 [] 0 0 Msg.empty = (true, Msg.empty) := by
  have hchi : ¬ ((0 : ℕ) > 0 ∧ dotq (([] : List ℚ).take 0)
      (([] : List ℚ).take 0) > env1.chisqr (0 - 0 - 1)) := by
    simp
  have hg : ¬ (env1.dops ((List.range 0).filterMap fun i =>
      if ([] : List Bool).getD i false then
        some (([] : List (ℚ × ℚ)).getD i (0, 0)) else none).length
      ((List.range 0).filterMap fun i =>
        if ([] : List Bool).getD i false then
          some (([] : List (ℚ × ℚ)).getD i (0, 0)) else none)
      opt1.elmin ≤ 0 ∨
    env1.dops ((List.range 0).filterMap fun i =>
      if ([] : List Bool).getD i false then
        some (([] : List (ℚ × ℚ)).getD i (0, 0)) else none).length
      ((List.range 0).filterMap fun i =>
        if ([] : List Bool).getD i false then
          some (([] : List (ℚ × ℚ)).getD i (0, 0)) else none)
      opt1.elmin > opt1.maxgdop) := by
    norm_num [env1, opt1]
  exact ⟨hchi, hg,
    (valsol_gates env1 opt1 [] [] 0 [] 0 0 Msg.empty).2.2.2 hchi hg⟩

/-- C9 (code bug evaluation): `rescode` declares `dion`, `dtrp`, `vion`,
`vtrp` without initialisers and the `iter = 0` bootstrap skips the block
that assigns them, so the residual and variance of every retained
observation read the locals' indeterminate initial contents (modelled by
`env.dion0` etc.).  With `dion0 = 1` and `vion0 = 4` the single retained
observation, whose geometry-and-code-bias-only residual is
`100 - 99 = 1` with model variance `0.09`, is stored with residual 0 and
variance `4.09`, contradicting the claimed zero ionospheric and
tropospheric contribution at iteration 0. -/
theorem rescode_iter0_reads_uninitialized :
    (rescode env9 nav1 opt1 0 satdata9 x0 [false] [(0, 0)] [0]).resp = [0] ∧
    (rescode env9 nav1 opt1 0 satdata9 x0 [false] [(0, 0)] [0]).rows.map
      Row.var = [409/100, 1/100, 1/100, 1/100, 1/100] ∧
    env9.dion0 = 1 ∧ env9.vion0 = 4 ∧
    ((100 : ℚ) - (99 + 0 - CLIGHT * 0) = 1) ∧ ¬ ((0 : ℚ) = 1) ∧
    ¬ ((409/100 : ℚ) = 9/100) := by
  norm_num [rescode, rescodeLoop, rescodeBody, rescodeGate, rescodeFinish,
    rescodeRow, rcSlotInit, pseudoRows, sysMaskIdx, prange, gettgd, varerr,
    env9, env1, nav1, opt1, satD, mkObs, satdata9, x0, SQR, NX, CLIGHT,
    ERR_CBIAS, List.range_succ, off_ne_iflc]
  rfl

/-- C10: the `mask[0]` slot of `rescode` is governed by the design-row
dispatch's default branch: a retained GPS, SBAS or QZSS observation sets
it, a retained GLONASS/Galileo/BeiDou/IRNSS observation leaves it
untouched, a skipped observation changes no mask slot, and whenever the
loop finishes with `mask[0]` unseen a pseudo-observation with residual 0,
a single 1 in the receiver-clock column 3 and variance 0.01 is appended -
so the rank-deficiency anchoring applies to the receiver-clock column as
well, not only to the inter-system offset columns 4..7. -/
theorem rescode_mask0_clock_anchor :
    (∀ (env : Env) (nav : Nav) (opt : PrcOpt) (iter : ℕ) (rr pos : List ℚ)
       (dtr : ℚ) (x : List ℚ) (d : SatIn) (i : ℕ) (sys : Sys) (st : RcState),
      (sys = Sys.SYS_GPS ∨ sys = Sys.SYS_SBS ∨ sys = Sys.SYS_QZS) →
      0 < st.mask.length →
      ¬ ((rescodeBody env nav opt iter rr pos dtr x d i sys st).ns = st.ns) →
      (rescodeBody env nav opt iter rr pos dtr x d i sys st).mask.getD 0 false
        = true) ∧
    (∀ (env : Env) (nav : Nav) (opt : PrcOpt) (iter : ℕ) (rr pos : List ℚ)
       (dtr : ℚ) (x : List ℚ) (d : SatIn) (i : ℕ) (sys : Sys) (st : RcState),
      (sys = Sys.SYS_GLO ∨ sys = Sys.SYS_GAL ∨ sys = Sys.SYS_CMP ∨
        sys = Sys.SYS_IRN) →
      (rescodeBody env nav opt iter rr pos dtr x d i sys st).mask.getD 0 false =
        st.mask.getD 0 false) ∧
    (∀ (env : Env) (nav : Nav) (opt : PrcOpt) (iter : ℕ) (rr pos : List ℚ)
       (dtr : ℚ) (x : List ℚ) (d : SatIn) (i : ℕ) (sys : Sys) (st : RcState),
      (rescodeBody env nav opt iter rr pos dtr x d i sys st).ns = st.ns →
      (rescodeBody env nav opt iter rr pos dtr x d i sys st).mask = st.mask) ∧
    (∀ (env : Env) (nav : Nav) (opt : PrcOpt) (iter : ℕ)
       (satdata : List SatIn) (x : List ℚ) (vsat0 : List Bool)
       (azel0 : List (ℚ × ℚ)) (resp0 : List ℚ),
      (rescode env nav opt iter satdata x vsat0 azel0 resp0).mask.getD 0 false
        = false →
      Row.mk 0 ((List.replicate 8 0).set 3 1) (1 / 100) ∈
        (rescode env nav opt iter satdata x vsat0 azel0 resp0).rows) := by
  refine ⟨?_, ?_, ?_, ?_⟩
  · intro env nav opt iter rr pos dtr x d i sys st hsys hlen hns
    rcases rescodeBody_cases env nav opt iter rr pos dtr x d i sys st with
      hc | ⟨ro, hrows, hns2, hmask, hH, hP⟩
    · exact absurd hc.2.1 hns
    · rw [hmask]
      have h0 : sysMaskIdx sys = 0 := by
        rcases hsys with h | h | h <;> rw [h] <;> rfl
      rw [h0]
      exact getD_set_self _ _ _ _ hlen
  · intro env nav opt iter rr pos dtr x d i sys st hsys
    rcases rescodeBody_cases env nav opt iter rr pos dtr x d i sys st with
      hc | ⟨ro, hrows, hns2, hmask, hH, hP⟩
    · rw [hc.2.2.1]
    · rw [hmask]
      have h0 : ¬ (sysMaskIdx sys = 0) := by
        rcases hsys with h | h | h | h <;> rw [h] <;> decide
      exact getD_set_ne _ _ _ _ _ h0
  · intro env nav opt iter rr pos dtr x d i sys st hns
    rcases rescodeBody_cases env nav opt iter rr pos dtr x d i sys st with
      hc | ⟨ro, hrows, hns2, hmask, hH, hP⟩
    · exact hc.2.2.1
    · rw [hns2] at hns
      omega
  · intro env nav opt iter satdata x vsat0 azel0 resp0 hmk
    exact List.mem_append_right _
      (pseudoRows_mem (rescode env nav opt iter satdata x vsat0 azel0
        resp0).mask 0 (by norm_num) hmk)

/-- C10 (witness): a call with no observations has `mask[0]` unseen and
carries the receiver-clock pseudo-observation. -/
theorem rescode_mask0_clock_anchor_witness :
    ((rescode env1 nav1 opt1 0 [] x0 [] [] []).mask.getD 0 false = false) ∧
    Row.mk 0 ((List.replicate 8 0).set 3 1) (1 / 100) ∈
      (rescode env1 nav1 opt1 0 [] x0 [] [] []).rows :=
  ⟨by decide,
   rescode_mask0_clock_anchor.2.2.2 env1 nav1 opt1 0 [] x0 [] [] []
     (by decide)⟩

end Pntpos
